import Mathlib

/-!
# Breeze style helper (`kstyle/breezehelper.cpp`)

A shallow embedding of the colour functions, the geometry helpers, the
border-size cache and some of the drawing routines of `Breeze::Helper`,
followed by the properties proved about them.

Conventions of the embedding

* `qreal` (a C++ `double`) values are rationals. The colour functions only
  compare such values with constants and hand them on. Where the helper does
  arithmetic on rectangles (`strokedRect`, the tool box path, and the `QRectF`
  members `adjusted`, `right`, `bottom` and `center`) each result is rounded
  to the nearest double, see `roundDouble`. The corner coordinates of
  `roundedPath` and the product in `alphaColor` are kept as exact expressions.
* `int` values are integers, and a result of `int` arithmetic is wrapped to
  32 bits, see `wrapInt32`.
* Qt and KDE Frameworks are external libraries. Their colour type is a type
  parameter `QColor`, and the operations the helper calls on it
  (`KColorUtils::mix`, `QColor::alphaF`, `QColor::setAlphaF`, the default
  constructor) are the fields of a `ColorLib` record that every colour
  function receives. A palette is the function `QPalette::color`.
* A `const` member function of `Helper` becomes a function taking the helper
  object `self` as its first argument; a member function that writes to the
  object returns the new object.
-/

namespace Breeze

/-- The floating point type `qreal` of Qt: its values are taken among the
rationals. -/
abbrev qreal := ℚ

/-- Modelled from the spec: the enumeration `Breeze::AnimationMode` is declared
in `breeze.h`, which is not among the sources; these are its enumerators, and
`AnimationNone` stands for no animation. The helper only ever tests a mode for
equality with `AnimationHover` or `AnimationFocus`. -/
inductive AnimationMode where
  | AnimationNone
  | AnimationHover
  | AnimationFocus
  | AnimationEnable
  | AnimationPressed
  deriving DecidableEq, Repr

open AnimationMode

/-- The enumeration `QPalette::ColorGroup` of Qt (`Normal` is an alias of
`Active`). -/
inductive QPalette.ColorGroup where
  | Active
  | Disabled
  | Inactive
  | NColorGroups
  | Current
  | All
  deriving DecidableEq, Repr

/-- The enumeration `QPalette::ColorRole` of Qt (`Foreground` and `Background`
are aliases of `WindowText` and `Window`). -/
inductive QPalette.ColorRole where
  | WindowText
  | Button
  | Light
  | Midlight
  | Dark
  | Mid
  | Text
  | BrightText
  | ButtonText
  | Base
  | Window
  | Shadow
  | Highlight
  | HighlightedText
  | Link
  | LinkVisited
  | AlternateBase
  | NoRole
  | ToolTipBase
  | ToolTipText
  | PlaceholderText
  | NColorRoles
  deriving DecidableEq, Repr

/-- A `QPalette`: its current colour group and the colour it reports for each
group and role (`QPalette::color( group, role )`). -/
structure QPalette (QColor : Type) where
  currentColorGroup : QPalette.ColorGroup
  color : QPalette.ColorGroup → QPalette.ColorRole → QColor

/-- The overload `QPalette::color( role )`, which Qt defines as
`color( Current, role )`. -/
def QPalette.colorOf {QColor : Type} (palette : QPalette QColor)
    (role : QPalette.ColorRole) : QColor :=
  palette.color QPalette.ColorGroup.Current role

/-- A `KStatefulBrush`, seen through the only use the helper makes of it:
the colour of `brush( palette )`. -/
abbrev KStatefulBrush (QColor : Type) := QPalette QColor → QColor

/-- The operations of the external colour libraries that the helper calls. -/
structure ColorLib (QColor : Type) where
  /-- The library function `KColorUtils::mix( c1, c2, bias )`. -/
  mix : QColor → QColor → qreal → QColor
  /-- The default constructed `QColor()`, an invalid colour. -/
  invalid : QColor
  /-- The member `QColor::isValid()`. -/
  isValid : QColor → Bool
  /-- The member `QColor::alphaF()`. -/
  alphaF : QColor → qreal
  /-- The member `QColor::setAlphaF( alpha )`, returning the modified colour. -/
  setAlphaF : QColor → qreal → QColor

/-- The data members of `Breeze::Helper` that the embedded functions read or
write. -/
structure Helper (QColor : Type) where
  _viewFocusBrush : KStatefulBrush QColor
  _viewHoverBrush : KStatefulBrush QColor
  _buttonFocusBrush : KStatefulBrush QColor
  _buttonHoverBrush : KStatefulBrush QColor
  _viewNegativeTextBrush : KStatefulBrush QColor
  _viewNeutralTextBrush : KStatefulBrush QColor
  _activeTitleBarColor : QColor
  _activeTitleBarTextColor : QColor
  _inactiveTitleBarColor : QColor
  _inactiveTitleBarTextColor : QColor
  _cachedAutoValid : Bool

/-- Contrast for arrow and treeline rendering. -/
def arrowShade : qreal := 0.15

namespace Helper

variable {QColor : Type}

/-- Modelled from the spec: `focusColor` is defined inline in `breezehelper.h`,
which is not among the sources; it is the colour of the loaded view focus
brush for the palette. -/
def focusColor (self : Helper QColor) (palette : QPalette QColor) : QColor :=
  self._viewFocusBrush palette

/-- Modelled from the spec: `hoverColor` is defined inline in `breezehelper.h`,
which is not among the sources; it is the colour of the loaded view hover
brush for the palette. -/
def hoverColor (self : Helper QColor) (palette : QPalette QColor) : QColor :=
  self._viewHoverBrush palette

/-- Modelled from the spec: `buttonFocusColor` is defined inline in
`breezehelper.h`, which is not among the sources; it is the colour of the
loaded button focus brush for the palette. -/
def buttonFocusColor (self : Helper QColor) (palette : QPalette QColor) : QColor :=
  self._buttonFocusBrush palette

/-- Modelled from the spec: `buttonHoverColor` is defined inline in
`breezehelper.h`, which is not among the sources; it is the colour of the
loaded button hover brush for the palette. -/
def buttonHoverColor (self : Helper QColor) (palette : QPalette QColor) : QColor :=
  self._buttonHoverBrush palette

/-- `Helper::alphaColor( color, alpha )`. -/
def alphaColor (_self : Helper QColor) (lib : ColorLib QColor) (color : QColor)
    (alpha : qreal) : QColor :=
  if alpha ≥ 0 ∧ alpha < 1.0 then lib.setAlphaF color (alpha * lib.alphaF color)
  else color

/-- `Helper::frameOutlineColor`. -/
def frameOutlineColor (self : Helper QColor) (lib : ColorLib QColor)
    (palette : QPalette QColor) (mouseOver hasFocus : Bool) (opacity : qreal)
    (mode : AnimationMode) : QColor :=
  let outline := lib.mix (palette.colorOf .Window) (palette.colorOf .WindowText) 0.25
  -- focus takes precedence over hover
  if mode = AnimationFocus then
    let focus := self.focusColor palette
    let hover := self.hoverColor palette
    if mouseOver then lib.mix hover focus opacity
    else lib.mix outline focus opacity
  else if hasFocus then
    self.focusColor palette
  else if mode = AnimationHover then
    let hover := self.hoverColor palette
    lib.mix outline hover opacity
  else if mouseOver then
    self.hoverColor palette
  else outline

/-- `Helper::focusOutlineColor`. -/
def focusOutlineColor (self : Helper QColor) (lib : ColorLib QColor)
    (palette : QPalette QColor) : QColor :=
  lib.mix (self.focusColor palette) (palette.colorOf .WindowText) 0.15

/-- `Helper::hoverOutlineColor`. -/
def hoverOutlineColor (self : Helper QColor) (lib : ColorLib QColor)
    (palette : QPalette QColor) : QColor :=
  lib.mix (self.hoverColor palette) (palette.colorOf .WindowText) 0.15

/-- `Helper::buttonFocusOutlineColor`. -/
def buttonFocusOutlineColor (self : Helper QColor) (lib : ColorLib QColor)
    (palette : QPalette QColor) : QColor :=
  lib.mix (self.buttonFocusColor palette) (palette.colorOf .ButtonText) 0.15

/-- `Helper::buttonHoverOutlineColor`. -/
def buttonHoverOutlineColor (self : Helper QColor) (lib : ColorLib QColor)
    (palette : QPalette QColor) : QColor :=
  lib.mix (self.buttonHoverColor palette) (palette.colorOf .ButtonText) 0.15

/-- `Helper::sidePanelOutlineColor`. -/
def sidePanelOutlineColor (_self : Helper QColor) (lib : ColorLib QColor)
    (palette : QPalette QColor) (hasFocus : Bool) (opacity : qreal)
    (mode : AnimationMode) : QColor :=
  let outline := palette.color .Inactive .Highlight
  let focus := palette.color .Active .Highlight
  if mode = AnimationFocus then lib.mix outline focus opacity
  else if hasFocus then focus
  else outline

/-- `Helper::frameBackgroundColor`. -/
def frameBackgroundColor (_self : Helper QColor) (lib : ColorLib QColor)
    (palette : QPalette QColor) (group : QPalette.ColorGroup) : QColor :=
  lib.mix (palette.color group .Window) (palette.color group .Base) 0.3

/-- `Helper::arrowColor( palette, group, role )`. -/
def arrowColor (_self : Helper QColor) (lib : ColorLib QColor)
    (palette : QPalette QColor) (group : QPalette.ColorGroup)
    (role : QPalette.ColorRole) : QColor :=
  match role with
  | .Text => lib.mix (palette.color group .Text) (palette.color group .Base) arrowShade
  | .WindowText =>
      lib.mix (palette.color group .WindowText) (palette.color group .Window) arrowShade
  | .ButtonText =>
      lib.mix (palette.color group .ButtonText) (palette.color group .Button) arrowShade
  | _ => palette.color group role

/-- Modelled from the spec: the overload `arrowColor( palette, role )` is
defined inline in `breezehelper.h`, which is not among the sources; it calls
the three argument overload with the current colour group of the palette. -/
def arrowColorRole (self : Helper QColor) (lib : ColorLib QColor)
    (palette : QPalette QColor) (role : QPalette.ColorRole) : QColor :=
  self.arrowColor lib palette palette.currentColorGroup role

/-- `Helper::arrowColor( palette, mouseOver, hasFocus, opacity, mode )`. -/
def arrowColorAnimated (self : Helper QColor) (lib : ColorLib QColor)
    (palette : QPalette QColor) (mouseOver hasFocus : Bool) (opacity : qreal)
    (mode : AnimationMode) : QColor :=
  let outline := self.arrowColorRole lib palette .WindowText
  if mode = AnimationHover then
    let focus := self.focusColor palette
    let hover := self.hoverColor palette
    if hasFocus then lib.mix focus hover opacity
    else lib.mix outline hover opacity
  else if mouseOver then
    self.hoverColor palette
  else if mode = AnimationFocus then
    let focus := self.focusColor palette
    lib.mix outline focus opacity
  else if hasFocus then
    self.focusColor palette
  else outline

/-- `Helper::buttonOutlineColor`. -/
def buttonOutlineColor (self : Helper QColor) (lib : ColorLib QColor)
    (palette : QPalette QColor) (mouseOver hasFocus : Bool) (opacity : qreal)
    (mode : AnimationMode) : QColor :=
  let outline := lib.mix (palette.colorOf .Button) (palette.colorOf .ButtonText) 0.3
  if mode = AnimationHover then
    if hasFocus then
      let focus := self.buttonFocusOutlineColor lib palette
      let hover := self.buttonHoverOutlineColor lib palette
      lib.mix focus hover opacity
    else
      let hover := self.buttonHoverColor palette
      lib.mix outline hover opacity
  else if mouseOver then
    if hasFocus then self.buttonHoverOutlineColor lib palette
    else self.buttonHoverColor palette
  else if mode = AnimationFocus then
    let focus := self.buttonFocusOutlineColor lib palette
    lib.mix outline focus opacity
  else if hasFocus then
    self.buttonFocusOutlineColor lib palette
  else outline

/-- `Helper::buttonBackgroundColor`. -/
def buttonBackgroundColor (self : Helper QColor) (lib : ColorLib QColor)
    (palette : QPalette QColor) (mouseOver hasFocus sunken : Bool) (opacity : qreal)
    (mode : AnimationMode) : QColor :=
  let background :=
    if sunken then lib.mix (palette.colorOf .Button) (palette.colorOf .ButtonText) 0.2
    else palette.colorOf .Button
  if mode = AnimationHover then
    let focus := self.buttonFocusColor palette
    let hover := self.buttonHoverColor palette
    if hasFocus then lib.mix focus hover opacity else background
  else if mouseOver && hasFocus then
    self.buttonHoverColor palette
  else if mode = AnimationFocus then
    let focus := self.buttonFocusColor palette
    lib.mix background focus opacity
  else if hasFocus then
    self.buttonFocusColor palette
  else background

/-- `Helper::toolButtonColor`. -/
def toolButtonColor (self : Helper QColor) (lib : ColorLib QColor)
    (palette : QPalette QColor) (mouseOver hasFocus sunken : Bool) (opacity : qreal)
    (mode : AnimationMode) : QColor :=
  let outline := lib.invalid
  let hoverColor := self.buttonHoverColor palette
  let focusColor := self.buttonFocusColor palette
  let sunkenColor := self.alphaColor lib (palette.colorOf .WindowText) 0.2
  -- hover takes precedence over focus
  if mode = AnimationHover then
    if hasFocus then lib.mix focusColor hoverColor opacity
    else if sunken then sunkenColor
    else self.alphaColor lib hoverColor opacity
  else if mouseOver then
    hoverColor
  else if mode = AnimationFocus then
    if sunken then lib.mix sunkenColor focusColor opacity
    else self.alphaColor lib focusColor opacity
  else if hasFocus then
    focusColor
  else if sunken then
    sunkenColor
  else outline

/-- `Helper::sliderOutlineColor`. -/
def sliderOutlineColor (self : Helper QColor) (lib : ColorLib QColor)
    (palette : QPalette QColor) (mouseOver hasFocus : Bool) (opacity : qreal)
    (mode : AnimationMode) : QColor :=
  let outline := lib.mix (palette.colorOf .Window) (palette.colorOf .WindowText) 0.4
  -- hover takes precedence over focus
  if mode = AnimationHover then
    let hover := self.hoverColor palette
    let focus := self.focusColor palette
    if hasFocus then lib.mix focus hover opacity
    else lib.mix outline hover opacity
  else if mouseOver then
    self.hoverColor palette
  else if mode = AnimationFocus then
    let focus := self.focusColor palette
    lib.mix outline focus opacity
  else if hasFocus then
    self.focusColor palette
  else outline

/-- `Helper::scrollBarHandleColor`. -/
def scrollBarHandleColor (self : Helper QColor) (lib : ColorLib QColor)
    (palette : QPalette QColor) (mouseOver hasFocus : Bool) (opacity : qreal)
    (mode : AnimationMode) : QColor :=
  let color := self.alphaColor lib (palette.colorOf .WindowText) 0.5
  -- hover takes precedence over focus
  if mode = AnimationHover then
    let hover := self.hoverColor palette
    let focus := self.focusColor palette
    if hasFocus then lib.mix focus hover opacity
    else lib.mix color hover opacity
  else if mouseOver then
    self.hoverColor palette
  else if mode = AnimationFocus then
    let focus := self.focusColor palette
    lib.mix color focus opacity
  else if hasFocus then
    self.focusColor palette
  else color

/-- `Helper::checkBoxIndicatorColor`. -/
def checkBoxIndicatorColor (self : Helper QColor) (lib : ColorLib QColor)
    (palette : QPalette QColor) (mouseOver active : Bool) (opacity : qreal)
    (mode : AnimationMode) : QColor :=
  let color := lib.mix (palette.colorOf .Window) (palette.colorOf .WindowText) 0.6
  if mode = AnimationHover then
    let focus := self.focusColor palette
    let hover := self.hoverColor palette
    if active then lib.mix focus hover opacity
    else lib.mix color hover opacity
  else if mouseOver then
    self.hoverColor palette
  else if active then
    self.focusColor palette
  else color

/-- `Helper::separatorColor`. -/
def separatorColor (_self : Helper QColor) (lib : ColorLib QColor)
    (palette : QPalette QColor) : QColor :=
  lib.mix (palette.colorOf .Window) (palette.colorOf .WindowText) 0.25

end Helper

/-! ## Configuration and the border-size cache -/

/-- The enumeration `KColorScheme::ColorSet` of KDE Frameworks. -/
inductive KColorScheme.ColorSet where
  | View
  | Window
  | Button
  | Selection
  | Tooltip
  | Complementary
  deriving DecidableEq, Repr

/-- The enumeration `KColorScheme::DecorationRole` of KDE Frameworks. -/
inductive KColorScheme.DecorationRole where
  | FocusColor
  | HoverColor
  deriving DecidableEq, Repr

/-- The enumeration `KColorScheme::ForegroundRole` of KDE Frameworks. -/
inductive KColorScheme.ForegroundRole where
  | NormalText
  | InactiveText
  | ActiveText
  | LinkText
  | VisitedText
  | NegativeText
  | NeutralText
  | PositiveText
  deriving DecidableEq, Repr

/-- A `KConfigGroup`, seen through `readEntry( key, default )` at the two
value types the helper asks for in the window-manager configuration. -/
structure KConfigGroup where
  readEntryBool : String → Bool → Bool
  readEntryString : String → String → String

/-- A `KConfig` object as it stands at some moment: its groups by name. -/
structure KConfig where
  group : String → KConfigGroup

/-- What `loadConfig` obtains from the desktop environment: the stateful
brushes of the colour scheme, the application palette, and `readEntry` of the
group `WM` of the colour scheme file (`appGroup`) and of the helper
configuration after it was parsed again (`globalGroup`). -/
structure ConfigEnvironment (QColor : Type) where
  decorationBrush :
    KColorScheme.ColorSet → KColorScheme.DecorationRole → KStatefulBrush QColor
  foregroundBrush :
    KColorScheme.ColorSet → KColorScheme.ForegroundRole → KStatefulBrush QColor
  applicationPalette : QPalette QColor
  appGroup : String → QColor → QColor
  globalGroup : String → QColor → QColor

/-- The function-local statics `isAuto` and `borderSize` of
`Helper::shouldDrawToolsArea`. -/
structure ToolsAreaStatics where
  isAuto : Bool
  borderSize : String
  deriving DecidableEq, Repr

/-- The values of the statics before the first call: `false` and the empty
string. -/
def ToolsAreaStatics.initial : ToolsAreaStatics := ⟨false, ""⟩

/-- The enumeration `Qt::WidgetAttribute`, by its numeric value. -/
abbrev Qt.WidgetAttribute := Nat

/-- The attribute `Qt::WA_TranslucentBackground`. -/
def Qt.WA_TranslucentBackground : Qt.WidgetAttribute := 120

/-- A `QToolBar`, seen through `isFloating()`. -/
structure QToolBar where
  isFloating : Bool
  deriving DecidableEq, Repr

/-- The widget returned by `widget->window()`, seen through whether its
`windowHandle()` is non-null. -/
structure QWindowWidget where
  hasWindowHandle : Bool
  deriving DecidableEq, Repr

/-- A `QWidget`, seen through the queries the helper makes: `testAttribute`,
`window()` (null is `none`), whether `qobject_cast<const QDialog*>` succeeds,
and the result of `qobject_cast<const QToolBar*>` (null is `none`). -/
structure QWidget where
  testAttribute : Qt.WidgetAttribute → Bool
  window : Option QWindowWidget
  isQDialog : Bool
  asQToolBar : Option QToolBar

/-- The window-system facts that `compositingActive` consults: the build
option `BREEZE_HAVE_QTX11EXTRAS`, `KWindowSystem::isPlatformX11()`,
`KWindowSystem::isPlatformWayland()`,
`QX11Info::isCompositingManagerRunning( QX11Info::appScreen() )` and
`KWindowSystem::compositingActive()`. -/
structure WindowSystem where
  haveQtX11Extras : Bool
  isPlatformX11 : Bool
  isPlatformWayland : Bool
  x11CompositingManagerRunning : Bool
  kwinCompositingActive : Bool
  deriving DecidableEq, Repr

namespace Helper

variable {QColor : Type}

/-- `Helper::loadConfig`: the helper object after the call. The two
`reparseConfiguration` calls and `_decorationConfig->load()` act on objects
outside the embedded members; their outcome is what `env` reports. -/
def loadConfig (self : Helper QColor) (env : ConfigEnvironment QColor) : Helper QColor :=
  let palette := env.applicationPalette
  { self with
    _viewFocusBrush := env.decorationBrush .View .FocusColor
    _viewHoverBrush := env.decorationBrush .View .HoverColor
    _buttonFocusBrush := env.decorationBrush .Button .FocusColor
    _buttonHoverBrush := env.decorationBrush .Button .HoverColor
    _viewNegativeTextBrush := env.foregroundBrush .View .NegativeText
    _viewNeutralTextBrush := env.foregroundBrush .View .NeutralText
    _cachedAutoValid := false
    _activeTitleBarColor :=
      env.appGroup "activeBackground"
        (env.globalGroup "activeBackground" (palette.color .Active .Highlight))
    _activeTitleBarTextColor :=
      env.appGroup "activeForeground"
        (env.globalGroup "activeForeground" (palette.color .Active .HighlightedText))
    _inactiveTitleBarColor :=
      env.appGroup "inactiveBackground"
        (env.globalGroup "inactiveBackground" (palette.color .Disabled .Highlight))
    _inactiveTitleBarTextColor :=
      env.appGroup "inactiveForeground"
        (env.globalGroup "inactiveForeground" (palette.color .Disabled .HighlightedText)) }

/-- The part of `Helper::shouldDrawToolsArea` that follows the refresh of the
cache: the decision taken from the values of `isAuto` and `borderSize` and
from the widget. A branch of the `isAuto` block that does not return falls
through to the border-size test. -/
def toolsAreaDecision (isAuto : Bool) (borderSize : String) (widget : QWidget) : Bool :=
  let borderTest : Bool :=
    if borderSize ≠ "None" ∧ borderSize ≠ "NoSides" then false else true
  if isAuto then
    if widget.isQDialog then true
    else
      match widget.window with
      | some window =>
          if window.hasWindowHandle then
            match widget.asQToolBar with
            | some toolbar => if toolbar.isFloating then false else true
            | none => true
          else borderTest
      | none => false
  else borderTest

/-- `Helper::shouldDrawToolsArea( widget )`, a null widget being `none`. The
call reads `_kwinConfig` as it stands at that moment (`kwinConfig`), and
returns its result with the helper object and the statics after the call. -/
def shouldDrawToolsArea (self : Helper QColor) (statics : ToolsAreaStatics)
    (kwinConfig : KConfig) (widget : Option QWidget) :
    Bool × Helper QColor × ToolsAreaStatics :=
  match widget with
  | none => (false, self, statics)
  | some widget =>
      if !self._cachedAutoValid then
        let kdecorationGroup := kwinConfig.group "org.kde.kdecoration2"
        let isAuto := kdecorationGroup.readEntryBool "BorderSizeAuto" true
        let borderSize := kdecorationGroup.readEntryString "BorderSize" "Normal"
        (toolsAreaDecision isAuto borderSize widget,
          { self with _cachedAutoValid := true }, ⟨isAuto, borderSize⟩)
      else
        (toolsAreaDecision statics.isAuto statics.borderSize widget, self, statics)

/-- A run of consecutive `shouldDrawToolsArea` calls on one helper, each with
the window-manager configuration as it stands at that call: the results in
order, and the helper object and statics at the end. -/
def shouldDrawToolsAreaCalls (self : Helper QColor) (statics : ToolsAreaStatics) :
    List (KConfig × Option QWidget) → List Bool × Helper QColor × ToolsAreaStatics
  | [] => ([], self, statics)
  | (kwinConfig, widget) :: rest =>
      let r := self.shouldDrawToolsArea statics kwinConfig widget
      let rs := shouldDrawToolsAreaCalls r.2.1 r.2.2 rest
      (r.1 :: rs.1, rs.2)

/-- `Helper::isX11`. -/
def isX11 (ws : WindowSystem) : Bool := ws.isPlatformX11

/-- `Helper::isWayland`. -/
def isWayland (ws : WindowSystem) : Bool := ws.isPlatformWayland

/-- `Helper::compositingActive`. -/
def compositingActive (_self : Helper QColor) (ws : WindowSystem) : Bool :=
  if ws.haveQtX11Extras && isX11 ws then ws.x11CompositingManagerRunning
  else ws.kwinCompositingActive

/-- `Helper::hasAlphaChannel( widget )`, a null widget being `none`. -/
def hasAlphaChannel (self : Helper QColor) (ws : WindowSystem)
    (widget : Option QWidget) : Bool :=
  self.compositingActive ws &&
    match widget with
    | none => false
    | some w => w.testAttribute Qt.WA_TranslucentBackground

end Helper

/-! ## Machine numbers

The geometry helpers compute with `int` and `double`. A 32-bit `int` result is
the two's-complement representative of the exact result, and a `double`
result is the exact result rounded to the nearest value with a 53-bit
significand, ties to even. -/

/-- The value a 32-bit `int` holds for an exact result `x`: the representative
of `x` modulo `2^32` between `-2^31` and `2^31 - 1`. Signed overflow is
undefined in C++; the embedding takes the wrapped value. -/
def wrapInt32 (x : Int) : Int := (x + 2147483648) % 4294967296 - 2147483648

/-- The values of a 32-bit `int`. -/
def isInt32 (x : Int) : Prop := -2147483648 ≤ x ∧ x ≤ 2147483647

instance (x : Int) : Decidable (isInt32 x) := by
  unfold isInt32
  infer_instance

/-- Rounding of a rational to the nearest integer, a tie going to the even
neighbour. -/
def roundHalfEven (q : ℚ) : ℤ :=
  if q - ⌊q⌋ < 1 / 2 then ⌊q⌋
  else if 1 / 2 < q - ⌊q⌋ then ⌊q⌋ + 1
  else if ⌊q⌋ % 2 = 0 then ⌊q⌋
  else ⌊q⌋ + 1

/-- The exponent of the last place of the double nearest to `x`: 52 below the
binary exponent of `x`, and never below that of the subnormal numbers. -/
def doubleExponent (x : ℚ) : ℤ := max (Int.log 2 |x| - 52) (-1074)

/-- The double nearest to `x`, ties to even: the result that an arithmetic
operation of IEEE 754 binary64 returns for the exact result `x`. Results
beyond the largest finite double, infinities and NaN are not modelled. -/
def roundDouble (x : ℚ) : qreal :=
  (roundHalfEven (x / 2 ^ doubleExponent x) : ℚ) * 2 ^ doubleExponent x

/-- Addition of two `double` values. -/
def qAdd (a b : qreal) : qreal := roundDouble (a + b)

/-- Subtraction of two `double` values. -/
def qSub (a b : qreal) : qreal := roundDouble (a - b)

/-- Multiplication of two `double` values. -/
def qMul (a b : qreal) : qreal := roundDouble (a * b)

/-- Division of two `double` values, the divisor not being zero. -/
def qDiv (a b : qreal) : qreal := roundDouble (a / b)

/-- A value is a multiple of `1/2` of magnitude at most `2^47`. -/
def onHalfGrid (v : qreal) : Prop :=
  ∃ k : ℤ, v = k / 2 ∧ -281474976710656 ≤ k ∧ k ≤ 281474976710656

/-! ## Rectangles -/

/-- A `QRectF`: top-left corner, width and height. -/
structure QRectF where
  xp : qreal
  yp : qreal
  w : qreal
  h : qreal
  deriving DecidableEq

/-- A `QPointF`. -/
structure QPointF where
  xp : qreal
  yp : qreal
  deriving DecidableEq

/-- A `QRect`: the integer coordinates of the top-left and the bottom-right
pixel, each a 32-bit `int`. -/
structure QRect where
  x1 : Int
  y1 : Int
  x2 : Int
  y2 : Int
  deriving DecidableEq

namespace QRectF

/-- `QRectF::left`. -/
def left (r : QRectF) : qreal := r.xp

/-- `QRectF::top`. -/
def top (r : QRectF) : qreal := r.yp

/-- `QRectF::right`, which Qt computes as `xp + w`. -/
def right (r : QRectF) : qreal := qAdd r.xp r.w

/-- `QRectF::bottom`, which Qt computes as `yp + h`. -/
def bottom (r : QRectF) : qreal := qAdd r.yp r.h

/-- `QRectF::width`. -/
def width (r : QRectF) : qreal := r.w

/-- `QRectF::height`. -/
def height (r : QRectF) : qreal := r.h

/-- `QRectF::center`, which Qt computes as `( xp + w/2, yp + h/2 )`. -/
def center (r : QRectF) : QPointF :=
  ⟨qAdd r.xp (qDiv r.w 2), qAdd r.yp (qDiv r.h 2)⟩

/-- `QRectF::adjusted( xp1, yp1, xp2, yp2 )`, which Qt computes as
`QRectF( xp + xp1, yp + yp1, w + xp2 - xp1, h + yp2 - yp1 )`. -/
def adjusted (r : QRectF) (xp1 yp1 xp2 yp2 : qreal) : QRectF :=
  ⟨qAdd r.xp xp1, qAdd r.yp yp1, qSub (qAdd r.w xp2) xp1, qSub (qAdd r.h yp2) yp1⟩

end QRectF

namespace QRect

/-- `QRect::width`, which Qt computes as `x2 - x1 + 1`. -/
def width (r : QRect) : Int := wrapInt32 (r.x2 - r.x1 + 1)

/-- `QRect::height`, which Qt computes as `y2 - y1 + 1`. -/
def height (r : QRect) : Int := wrapInt32 (r.y2 - r.y1 + 1)

/-- The converting constructor `QRectF( const QRect& )`; an `int` converts to
`double` without rounding. -/
def toQRectF (r : QRect) : QRectF := ⟨r.x1, r.y1, r.width, r.height⟩

end QRect

namespace Helper

variable {QColor : Type}

/-- `Helper::strokedRect( const QRectF&, penWidth )`; the `int` pen width
converts to `double` without rounding. -/
def strokedRect (_self : Helper QColor) (rect : QRectF) (penWidth : Int) : QRectF :=
  let adjustment : qreal := qMul 0.5 penWidth
  rect.adjusted adjustment adjustment (-adjustment) (-adjustment)

/-- `Helper::strokedRect( const QRect&, penWidth )`. -/
def strokedRectOfQRect (self : Helper QColor) (rect : QRect) (penWidth : Int) : QRectF :=
  self.strokedRect rect.toQRectF penWidth

end Helper

/-! ## Painter paths and painter operations

A `QPainterPath` is modelled by the sequence of elements added to it, and a
`QPainter` by the sequence of operations issued on it: the state of the
painter and the content of the canvas are functions of that sequence. -/

/-- A `QSizeF`. -/
structure QSizeF where
  wd : qreal
  ht : qreal
  deriving DecidableEq

instance : Add QPointF := ⟨fun a b => ⟨a.xp + b.xp, a.yp + b.yp⟩⟩

instance : Sub QPointF := ⟨fun a b => ⟨a.xp - b.xp, a.yp - b.yp⟩⟩

namespace QRectF

/-- The constructor `QRectF( topLeft, size )`. -/
def ofPointSize (topLeft : QPointF) (size : QSizeF) : QRectF :=
  ⟨topLeft.xp, topLeft.yp, size.wd, size.ht⟩

/-- `QRectF::topLeft`. -/
def topLeft (r : QRectF) : QPointF := ⟨r.xp, r.yp⟩

/-- `QRectF::bottomLeft`. -/
def bottomLeft (r : QRectF) : QPointF := ⟨r.xp, r.yp + r.h⟩

/-- `QRectF::bottomRight`. -/
def bottomRight (r : QRectF) : QPointF := ⟨r.xp + r.w, r.yp + r.h⟩

/-- `QRectF::topRight`. -/
def topRight (r : QRectF) : QPointF := ⟨r.xp + r.w, r.yp⟩

end QRectF

/-- `QRect::adjusted( dx1, dy1, dx2, dy2 )`. -/
def QRect.adjusted (r : QRect) (dx1 dy1 dx2 dy2 : Int) : QRect :=
  ⟨wrapInt32 (r.x1 + dx1), wrapInt32 (r.y1 + dy1), wrapInt32 (r.x2 + dx2),
    wrapInt32 (r.y2 + dy2)⟩

/-- One element added to a `QPainterPath`, named after the member function
that adds it. -/
inductive PathElement where
  | addRect (rect : QRectF)
  | addRoundedRect (rect : QRectF) (xRadius yRadius : qreal)
  | moveTo (p : QPointF)
  | lineTo (p : QPointF)
  | arcTo (rect : QRectF) (startAngle sweepLength : qreal)
  | closeSubpath
  deriving DecidableEq

/-- A `QPainterPath`: the elements added to it, in order. -/
structure QPainterPath where
  elements : List PathElement
  deriving DecidableEq

namespace QPainterPath

/-- The default constructed, empty path. -/
def empty : QPainterPath := ⟨[]⟩

/-- `QPainterPath::addRect`. -/
def addRect (path : QPainterPath) (rect : QRectF) : QPainterPath :=
  ⟨path.elements ++ [.addRect rect]⟩

/-- `QPainterPath::addRoundedRect`. -/
def addRoundedRect (path : QPainterPath) (rect : QRectF) (xRadius yRadius : qreal) :
    QPainterPath :=
  ⟨path.elements ++ [.addRoundedRect rect xRadius yRadius]⟩

/-- `QPainterPath::moveTo`. -/
def moveTo (path : QPainterPath) (p : QPointF) : QPainterPath :=
  ⟨path.elements ++ [.moveTo p]⟩

/-- `QPainterPath::lineTo`. -/
def lineTo (path : QPainterPath) (p : QPointF) : QPainterPath :=
  ⟨path.elements ++ [.lineTo p]⟩

/-- `QPainterPath::arcTo`. -/
def arcTo (path : QPainterPath) (rect : QRectF) (startAngle sweepLength : qreal) :
    QPainterPath :=
  ⟨path.elements ++ [.arcTo rect startAngle sweepLength]⟩

/-- `QPainterPath::closeSubpath`. -/
def closeSubpath (path : QPainterPath) : QPainterPath :=
  ⟨path.elements ++ [.closeSubpath]⟩

end QPainterPath

/-- The flags type `Breeze::Corners`, by its numeric value. -/
abbrev Corners := Nat

/-- Modelled from the spec: the enumerator `CornerTopLeft` is declared in
`breeze.h`, which is not among the sources. -/
def CornerTopLeft : Corners := 0x1

/-- Modelled from the spec: the enumerator `CornerTopRight` is declared in
`breeze.h`, which is not among the sources. -/
def CornerTopRight : Corners := 0x2

/-- Modelled from the spec: the enumerator `CornerBottomLeft` is declared in
`breeze.h`, which is not among the sources. -/
def CornerBottomLeft : Corners := 0x4

/-- Modelled from the spec: the enumerator `CornerBottomRight` is declared in
`breeze.h`, which is not among the sources. -/
def CornerBottomRight : Corners := 0x8

/-- Modelled from the spec: the enumerator `AllCorners` is declared in
`breeze.h`, which is not among the sources; it is the union of the four
corners. -/
def AllCorners : Corners :=
  CornerTopLeft ||| CornerTopRight ||| CornerBottomLeft ||| CornerBottomRight

/-- The test `corners & corner` of the source, true when the result is
non-zero. -/
def hasCorner (corners corner : Corners) : Bool := corners &&& corner != 0

/-- The render hints of `QPainter`. -/
inductive RenderHint where
  | Antialiasing
  | TextAntialiasing
  | SmoothPixmapTransform
  deriving DecidableEq, Repr

/-- A pen handed to `QPainter::setPen`: `Qt::NoPen` or a colour. -/
inductive QPen (QColor : Type) where
  | NoPen
  | ofColor (color : QColor)
  deriving DecidableEq

/-- A brush handed to `QPainter::setBrush`: `Qt::NoBrush` or a colour. -/
inductive QBrush (QColor : Type) where
  | NoBrush
  | ofColor (color : QColor)
  deriving DecidableEq

/-- One operation issued on a `QPainter`, named after the member function. -/
inductive PainterOp (QColor : Type) where
  | setRenderHints (hint : RenderHint)
  | setPen (pen : QPen QColor)
  | setBrush (brush : QBrush QColor)
  | translate (offset : QPointF)
  | drawRoundedRect (rect : QRectF) (xRadius yRadius : qreal)
  | drawPath (path : QPainterPath)
  deriving DecidableEq

/-- A `QPainter`: the operations issued on it so far, in order. -/
structure QPainter (QColor : Type) where
  ops : List (PainterOp QColor)

/-- The painter after one more operation. -/
def QPainter.issue {QColor : Type} (painter : QPainter QColor) (op : PainterOp QColor) :
    QPainter QColor :=
  ⟨painter.ops ++ [op]⟩

/-- The constants and the inline function of `breeze.h` and `breezehelper.h`
that the drawing routines use and that are not among the sources:
`PenWidth::Frame` and `PenWidth::NoPen` as the `int` pen width arguments they
are passed as, and `frameRadius( penWidth )`. They are taken as given. -/
structure Metrics where
  PenWidth_Frame : Int
  PenWidth_NoPen : Int
  frameRadius : Int → qreal

namespace Helper

variable {QColor : Type}

/-- `Helper::renderToolButtonFrame`: the painter after the call. -/
def renderToolButtonFrame (self : Helper QColor) (lib : ColorLib QColor) (m : Metrics)
    (painter : QPainter QColor) (rect : QRect) (color : QColor) (sunken : Bool) :
    QPainter QColor :=
  -- do nothing for invalid color
  if !lib.isValid color then painter
  else
    -- setup painter
    let painter := painter.issue (.setRenderHints .Antialiasing)
    let baseRect : QRectF := (rect.adjusted 1 1 (-1) (-1)).toQRectF
    if sunken then
      let radius := m.frameRadius m.PenWidth_NoPen
      let painter := painter.issue (.setPen .NoPen)
      let painter := painter.issue (.setBrush (.ofColor color))
      painter.issue (.drawRoundedRect baseRect radius radius)
    else
      let radius := m.frameRadius m.PenWidth_Frame
      let painter := painter.issue (.setPen (.ofColor color))
      let painter := painter.issue (.setBrush .NoBrush)
      let outlineRect := self.strokedRect baseRect m.PenWidth_Frame
      painter.issue (.drawRoundedRect outlineRect radius radius)

/-- The statement `if( !((rect.width() - tabWidth)%2) ) ++tabWidth;` of
`Helper::renderToolBoxFrame`: the value of `tabWidth` after it. The
subtraction and the increment are 32-bit `int` operations, and the operator
`%` of C++ truncates towards zero. -/
def toolBoxTabWidth (rect : QRect) (tabWidth : Int) : Int :=
  if (wrapInt32 (rect.width - tabWidth)).tmod 2 = 0 then wrapInt32 (tabWidth + 1)
  else tabWidth

/-- The path that `Helper::renderToolBoxFrame` creates from the adjusted
rectangle, the tab width in use and the radius; every operation is a
`double` operation, the `int` tab width converting without rounding. -/
def toolBoxPath (baseRect : QRectF) (tabWidth : Int) (radius : qreal) : QPainterPath :=
  let cornerSize : QSizeF := ⟨qMul 2 radius, qMul 2 radius⟩
  let path := QPainterPath.empty
  let path := path.moveTo ⟨0, qSub baseRect.height 1⟩
  let path := path.lineTo
    ⟨qSub (qDiv (qSub baseRect.width tabWidth) 2) radius, qSub baseRect.height 1⟩
  let path := path.arcTo
    (QRectF.ofPointSize
      ⟨qSub (qDiv (qSub baseRect.width tabWidth) 2) (qMul 2 radius),
        qSub (qSub baseRect.height 1) (qMul 2 radius)⟩
      cornerSize) 270 90
  let path := path.lineTo ⟨qDiv (qSub baseRect.width tabWidth) 2, radius⟩
  let path := path.arcTo
    (QRectF.ofPointSize ⟨qDiv (qSub baseRect.width tabWidth) 2, 0⟩ cornerSize) 180 (-90)
  let path := path.lineTo
    ⟨qSub (qSub (qDiv (qAdd baseRect.width tabWidth) 2) 1) radius, 0⟩
  let path := path.arcTo
    (QRectF.ofPointSize
      ⟨qSub (qSub (qDiv (qAdd baseRect.width tabWidth) 2) 1) (qMul 2 radius), 0⟩
      cornerSize) 90 (-90)
  let path := path.lineTo
    ⟨qSub (qDiv (qAdd baseRect.width tabWidth) 2) 1,
      qSub (qSub baseRect.height 1) radius⟩
  let path := path.arcTo
    (QRectF.ofPointSize
      ⟨qSub (qDiv (qAdd baseRect.width tabWidth) 2) 1,
        qSub (qSub baseRect.height 1) (qMul 2 radius)⟩
      cornerSize) 180 90
  path.lineTo ⟨qSub baseRect.width 1, qSub baseRect.height 1⟩

/-- `Helper::renderToolBoxFrame`: the painter after the call. -/
def renderToolBoxFrame (self : Helper QColor) (lib : ColorLib QColor) (m : Metrics)
    (painter : QPainter QColor) (rect : QRect) (tabWidth : Int) (outline : QColor) :
    QPainter QColor :=
  if !lib.isValid outline then painter
  else
    -- round radius
    let radius := m.frameRadius m.PenWidth_Frame
    -- if rect - tabwidth is even, need to increase tabWidth by 1 unit
    -- for anti aliasing
    let tabWidth := toolBoxTabWidth rect tabWidth
    -- adjust rect for antialiasing
    let baseRect := self.strokedRectOfQRect rect m.PenWidth_Frame
    -- create path
    let path := toolBoxPath baseRect tabWidth radius
    -- render
    let painter := painter.issue (.setRenderHints .Antialiasing)
    let painter := painter.issue (.setBrush .NoBrush)
    let painter := painter.issue (.setPen (.ofColor outline))
    let painter := painter.issue (.translate baseRect.topLeft)
    painter.issue (.drawPath path)

/-- `Helper::roundedPath`. -/
def roundedPath (_self : Helper QColor) (rect : QRectF) (corners : Corners)
    (radius : qreal) : QPainterPath :=
  let path := QPainterPath.empty
  -- simple cases
  if corners = 0 then path.addRect rect
  else if corners = AllCorners then path.addRoundedRect rect radius radius
  else
    let cornerSize : QSizeF := ⟨2 * radius, 2 * radius⟩
    -- rotate counterclockwise
    -- top left corner
    let path :=
      if hasCorner corners CornerTopLeft then
        (path.moveTo (rect.topLeft + ⟨radius, 0⟩)).arcTo
          (QRectF.ofPointSize rect.topLeft cornerSize) 90 90
      else path.moveTo rect.topLeft
    -- bottom left corner
    let path :=
      if hasCorner corners CornerBottomLeft then
        (path.lineTo (rect.bottomLeft - ⟨0, radius⟩)).arcTo
          (QRectF.ofPointSize (rect.bottomLeft - ⟨0, 2 * radius⟩) cornerSize) 180 90
      else path.lineTo rect.bottomLeft
    -- bottom right corner
    let path :=
      if hasCorner corners CornerBottomRight then
        (path.lineTo (rect.bottomRight - ⟨radius, 0⟩)).arcTo
          (QRectF.ofPointSize (rect.bottomRight - ⟨2 * radius, 2 * radius⟩) cornerSize)
          270 90
      else path.lineTo rect.bottomRight
    -- top right corner
    let path :=
      if hasCorner corners CornerTopRight then
        (path.lineTo (rect.topRight + ⟨0, radius⟩)).arcTo
          (QRectF.ofPointSize (rect.topRight - ⟨2 * radius, 0⟩) cornerSize) 0 90
      else path.lineTo rect.topRight
    path.closeSubpath

end Helper

/-! ## A concrete colour model

The colour functions are stated for every colour library. To evaluate them on
concrete inputs the following model is used: a colour is a validity flag and
four channel values, and `mix` is the channel-wise linear blend that returns
its first argument at bias 0 and below and its second argument at bias 1 and
above. -/

/-- A concrete colour: validity flag and red, green, blue and alpha values. -/
structure Rgba where
  valid : Bool
  red : qreal
  green : qreal
  blue : qreal
  alpha : qreal
  deriving DecidableEq

namespace Rgba

/-- Channel-wise linear blend of two colours, clamped at both ends of the
bias range. -/
def mix (c1 c2 : Rgba) (bias : qreal) : Rgba :=
  if bias ≤ 0 then c1
  else if bias ≥ 1 then c2
  else
    ⟨true, c1.red + (c2.red - c1.red) * bias, c1.green + (c2.green - c1.green) * bias,
      c1.blue + (c2.blue - c1.blue) * bias, c1.alpha + (c2.alpha - c1.alpha) * bias⟩

/-- The concrete colour library. -/
def lib : ColorLib Rgba where
  mix := mix
  invalid := ⟨false, 0, 0, 0, 1⟩
  isValid := fun c => c.valid
  alphaF := fun c => c.alpha
  setAlphaF := fun c a => { c with alpha := a }

/-- Solid black. -/
def black : Rgba := ⟨true, 0, 0, 0, 1⟩

/-- Solid white. -/
def white : Rgba := ⟨true, 1, 1, 1, 1⟩

/-- Solid red. -/
def redColor : Rgba := ⟨true, 1, 0, 0, 1⟩

/-- Solid blue. -/
def blueColor : Rgba := ⟨true, 0, 0, 1, 1⟩

/-- A sample palette: black text on white, the same in every colour group. -/
def samplePalette : QPalette Rgba where
  currentColorGroup := .Active
  color := fun _ role =>
    match role with
    | .WindowText => black
    | .Text => black
    | .ButtonText => black
    | .Highlight => blueColor
    | _ => white

/-- A sample helper: red focus brushes and blue hover brushes, cache not
valid. -/
def sampleHelper : Helper Rgba where
  _viewFocusBrush := fun _ => redColor
  _viewHoverBrush := fun _ => blueColor
  _buttonFocusBrush := fun _ => redColor
  _buttonHoverBrush := fun _ => blueColor
  _viewNegativeTextBrush := fun _ => redColor
  _viewNeutralTextBrush := fun _ => black
  _activeTitleBarColor := blueColor
  _activeTitleBarTextColor := white
  _inactiveTitleBarColor := white
  _inactiveTitleBarTextColor := black
  _cachedAutoValid := false

/-- The sample helper at a later moment: the same four focus and hover
brushes, other members changed and the cache valid. -/
def sampleHelperLater : Helper Rgba where
  _viewFocusBrush := fun _ => redColor
  _viewHoverBrush := fun _ => blueColor
  _buttonFocusBrush := fun _ => redColor
  _buttonHoverBrush := fun _ => blueColor
  _viewNegativeTextBrush := fun _ => black
  _viewNeutralTextBrush := fun _ => redColor
  _activeTitleBarColor := black
  _activeTitleBarTextColor := redColor
  _inactiveTitleBarColor := blueColor
  _inactiveTitleBarTextColor := white
  _cachedAutoValid := true

end Rgba

namespace Helper

variable {QColor : Type}

/-- Two helper objects hold the same loaded focus and hover brushes. -/
def sameLoadedBrushes (a b : Helper QColor) : Prop :=
  a._viewFocusBrush = b._viewFocusBrush ∧ a._viewHoverBrush = b._viewHoverBrush ∧
    a._buttonFocusBrush = b._buttonFocusBrush ∧ a._buttonHoverBrush = b._buttonHoverBrush

end Helper

/-- A widget with the translucent-background attribute and no other. -/
def sampleTranslucentWidget : QWidget where
  testAttribute := fun a => decide (a = Qt.WA_TranslucentBackground)
  window := some ⟨true⟩
  isQDialog := false
  asQToolBar := none

/-- A window system without compositing, on X11 with the X11 extras built
in. -/
def sampleNoCompositing : WindowSystem where
  haveQtX11Extras := true
  isPlatformX11 := true
  isPlatformWayland := false
  x11CompositingManagerRunning := false
  kwinCompositingActive := true

/-! ## The rounded path as the specification words it

The definitions of this section follow the description of the general case of
`roundedPath`, not its source: the corners are visited in a fixed order, a
corner outside the set is a vertex, and a corner inside the set is a quarter
arc in the square of side `2*radius` tucked into that corner, reached at the
point where the arc starts. They are compared with `Helper.roundedPath`
below. -/

namespace CornerPosition

end CornerPosition

/-- Sample metrics: pen widths 1 and 0, and a frame radius of 3 less half the
pen width. -/
def sampleMetrics : Metrics where
  PenWidth_Frame := 1
  PenWidth_NoPen := 0
  frameRadius := fun penWidth => 3 - (penWidth : qreal) / 2

/-- A painter on which nothing was issued yet. -/
def samplePainter : QPainter Rgba := ⟨[]⟩

/-- A sample rectangle of width 10 and height 6. -/
def sampleRect : QRect := ⟨0, 0, 9, 5⟩

/-! ## Properties -/

/-- Rounding an integer to the nearest integer returns it. -/
theorem roundHalfEven_intCast (n : ℤ) : roundHalfEven (n : ℚ) = n := by
  simp [roundHalfEven]

/-- A value less than half above an integer rounds to that integer. -/
theorem roundHalfEven_of_lt (q : ℚ) (f : ℤ) (h1 : (f : ℚ) ≤ q) (h2 : q < f + 1 / 2) :
    roundHalfEven q = f := by
  have hf : ⌊q⌋ = f := by
    rw [Int.floor_eq_iff]
    constructor
    · exact h1
    · linarith
  simp only [roundHalfEven, hf]
  rw [if_pos (by linarith)]

/-- A value half above an odd integer rounds to the even integer above. -/
theorem roundHalfEven_tie_odd (q : ℚ) (f : ℤ) (hq : q = f + 1 / 2) (hodd : f % 2 = 1) :
    roundHalfEven q = f + 1 := by
  have hf : ⌊q⌋ = f := by
    rw [Int.floor_eq_iff]
    constructor <;> rw [hq] <;> linarith
  simp only [roundHalfEven, hf]
  have e : q - f = 1 / 2 := by rw [hq]; ring
  rw [e, if_neg (lt_irrefl _), if_neg (lt_irrefl _), if_neg (by omega)]

/-- The exponent of the last place of a value between two consecutive powers
of two. -/
theorem doubleExponent_of_bounds (x : ℚ) (k : ℤ) (h1 : (2 : ℚ) ^ k ≤ |x|)
    (h2 : |x| < (2 : ℚ) ^ (k + 1)) : doubleExponent x = max (k - 52) (-1074) := by
  have hpos : 0 < |x| := lt_of_lt_of_le (by positivity) h1
  have hlog : Int.log 2 |x| = k := by
    apply le_antisymm
    · have := (Int.lt_zpow_iff_log_lt (b := 2) (by norm_num) hpos).1 (by exact_mod_cast h2)
      omega
    · exact (Int.zpow_le_iff_le_log (b := 2) (by norm_num) hpos).1 (by exact_mod_cast h1)
  simp [doubleExponent, hlog]

/-- An integer multiple of a power of two is recovered from its quotient by
any lower power of two. -/
theorem roundHalfEven_scaled (m E : ℤ) (d : ℕ) :
    (roundHalfEven ((m : ℚ) * 2 ^ (E + d) / 2 ^ E) : ℚ) * 2 ^ E = (m : ℚ) * 2 ^ (E + d) := by
  have h2 : (2 : ℚ) ^ E ≠ 0 := by positivity
  have hq : (m : ℚ) * 2 ^ (E + d) / 2 ^ E = ((m * 2 ^ d : ℤ) : ℚ) := by
    rw [zpow_add₀ (by norm_num : (2 : ℚ) ≠ 0), zpow_natCast]
    push_cast
    field_simp
    ring
  rw [hq, roundHalfEven_intCast, zpow_add₀ (by norm_num : (2 : ℚ) ≠ 0), zpow_natCast]
  push_cast
  ring

/-- A value with a significand below `2^53` and an exponent not below that of
the subnormal numbers is a double: rounding returns it. -/
theorem roundDouble_of_scaled (m e : ℤ) (hm : |m| < 2 ^ 53) (he : -1074 ≤ e) :
    roundDouble ((m : ℚ) * 2 ^ e) = (m : ℚ) * 2 ^ e := by
  by_cases h0 : m = 0
  · subst h0
    simp [roundDouble, roundHalfEven]
  have hxabs : |(m : ℚ) * 2 ^ e| = ((|m| : ℤ) : ℚ) * (2 : ℚ) ^ e := by
    rw [abs_mul, abs_of_pos (a := (2 : ℚ) ^ e) (by positivity)]
    push_cast
    rfl
  have hpos : 0 < |(m : ℚ) * 2 ^ e| := by
    rw [hxabs]
    have : (0 : ℚ) < ((|m| : ℤ) : ℚ) := by exact_mod_cast abs_pos.2 h0
    positivity
  have hlt : |(m : ℚ) * 2 ^ e| < (2 : ℚ) ^ (53 + e) := by
    rw [hxabs, zpow_add₀ (by norm_num : (2 : ℚ) ≠ 0)]
    have : ((|m| : ℤ) : ℚ) < (2 : ℚ) ^ (53 : ℤ) := by exact_mod_cast hm
    exact mul_lt_mul_of_pos_right this (by positivity)
  have hlog : Int.log 2 |(m : ℚ) * 2 ^ e| < 53 + e :=
    (Int.lt_zpow_iff_log_lt (b := 2) (by norm_num) hpos).1 (by exact_mod_cast hlt)
  have hE : doubleExponent ((m : ℚ) * 2 ^ e) ≤ e := by
    unfold doubleExponent
    omega
  unfold roundDouble
  generalize doubleExponent ((m : ℚ) * 2 ^ e) = E at hE ⊢
  obtain ⟨d, hd⟩ : ∃ d : ℕ, e = E + d := ⟨(e - E).toNat, by omega⟩
  subst hd
  exact roundHalfEven_scaled m E d

/-- A multiple of `1/4` with a numerator below `2^53` in magnitude is a
double. -/
theorem roundDouble_quarter (m : ℤ)
    (hm : -9007199254740992 < m ∧ m < 9007199254740992) :
    roundDouble ((m : ℚ) / 4) = (m : ℚ) / 4 := by
  have hm' : |m| < 2 ^ 53 := by
    rw [abs_lt]
    norm_num
    exact hm
  have h := roundDouble_of_scaled m (-2) hm' (by norm_num)
  have e : (m : ℚ) * 2 ^ (-2 : ℤ) = (m : ℚ) / 4 := by
    rw [zpow_neg]
    norm_num
    ring
  rwa [e] at h

/-- A sum on the quarter grid is computed without rounding. -/
theorem qAdd_exact (a b : qreal) (m : ℤ) (h : a + b = (m : ℚ) / 4)
    (hm : -9007199254740992 < m ∧ m < 9007199254740992) : qAdd a b = a + b := by
  unfold qAdd
  rw [h, roundDouble_quarter m hm]

/-- A difference on the quarter grid is computed without rounding. -/
theorem qSub_exact (a b : qreal) (m : ℤ) (h : a - b = (m : ℚ) / 4)
    (hm : -9007199254740992 < m ∧ m < 9007199254740992) : qSub a b = a - b := by
  unfold qSub
  rw [h, roundDouble_quarter m hm]

/-- A product on the quarter grid is computed without rounding. -/
theorem qMul_exact (a b : qreal) (m : ℤ) (h : a * b = (m : ℚ) / 4)
    (hm : -9007199254740992 < m ∧ m < 9007199254740992) : qMul a b = a * b := by
  unfold qMul
  rw [h, roundDouble_quarter m hm]

/-- A quotient on the quarter grid is computed without rounding. -/
theorem qDiv_exact (a b : qreal) (m : ℤ) (h : a / b = (m : ℚ) / 4)
    (hm : -9007199254740992 < m ∧ m < 9007199254740992) : qDiv a b = a / b := by
  unfold qDiv
  rw [h, roundDouble_quarter m hm]

/-- The sum of `2^53` and `1/2` rounds down to `2^53`. -/
theorem roundDouble_above_two_pow_53 :
    roundDouble (9007199254740992 + 1 / 2) = 9007199254740992 := by
  have hE : doubleExponent (9007199254740992 + 1 / 2) = 1 := by
    rw [doubleExponent_of_bounds _ 53 (by norm_num [abs_of_pos])
      (by norm_num [abs_of_pos])]
    norm_num
  unfold roundDouble
  rw [hE, roundHalfEven_of_lt _ 4503599627370496 (by norm_num) (by norm_num)]
  norm_num

/-- The difference of `2^53` and `1/2` is a tie and rounds up to `2^53`. -/
theorem roundDouble_below_two_pow_53 :
    roundDouble (9007199254740992 - 1 / 2) = 9007199254740992 := by
  have hE : doubleExponent (9007199254740992 - 1 / 2) = 0 := by
    rw [doubleExponent_of_bounds _ 52 (by norm_num [abs_of_pos])
      (by norm_num [abs_of_pos])]
    norm_num
  unfold roundDouble
  rw [hE, roundHalfEven_tie_odd _ 9007199254740991 (by norm_num) (by norm_num)]
  norm_num

/-- Wrapping to 32 bits keeps the parity. -/
theorem wrapInt32_even_iff (x : Int) : Even (wrapInt32 x) ↔ Even x := by
  rw [Int.even_iff, Int.even_iff]
  unfold wrapInt32
  omega

/-- A value of a 32-bit `int` is left alone by wrapping. -/
theorem wrapInt32_of_isInt32 (x : Int) (h : isInt32 x) : wrapInt32 x = x := by
  unfold isInt32 at h
  unfold wrapInt32
  omega

/-- The result of wrapping is a value of a 32-bit `int`. -/
theorem isInt32_wrapInt32 (x : Int) : isInt32 (wrapInt32 x) := by
  unfold isInt32 wrapInt32
  omega

namespace Helper

variable {QColor : Type}

/-- C1: colour blending is deterministic. Each of the eleven colour functions
returns the same colour on two helper objects that hold the same loaded focus
and hover brushes, whatever their other members are, when it is given the
same palette, flags, opacity and animation mode (and the external library is
a function of its arguments). -/
theorem colour_functions_deterministic (lib : ColorLib QColor) (a b : Helper QColor)
    (hab : sameLoadedBrushes a b) (palette : QPalette QColor)
    (mouseOver hasFocus sunken : Bool) (opacity : qreal) (mode : AnimationMode)
    (group : QPalette.ColorGroup) (role : QPalette.ColorRole) (color : QColor)
    (alpha : qreal) :
    a.frameOutlineColor lib palette mouseOver hasFocus opacity mode
        = b.frameOutlineColor lib palette mouseOver hasFocus opacity mode ∧
    a.sidePanelOutlineColor lib palette hasFocus opacity mode
        = b.sidePanelOutlineColor lib palette hasFocus opacity mode ∧
    a.arrowColor lib palette group role = b.arrowColor lib palette group role ∧
    a.arrowColorAnimated lib palette mouseOver hasFocus opacity mode
        = b.arrowColorAnimated lib palette mouseOver hasFocus opacity mode ∧
    a.buttonOutlineColor lib palette mouseOver hasFocus opacity mode
        = b.buttonOutlineColor lib palette mouseOver hasFocus opacity mode ∧
    a.buttonBackgroundColor lib palette mouseOver hasFocus sunken opacity mode
        = b.buttonBackgroundColor lib palette mouseOver hasFocus sunken opacity mode ∧
    a.toolButtonColor lib palette mouseOver hasFocus sunken opacity mode
        = b.toolButtonColor lib palette mouseOver hasFocus sunken opacity mode ∧
    a.sliderOutlineColor lib palette mouseOver hasFocus opacity mode
        = b.sliderOutlineColor lib palette mouseOver hasFocus opacity mode ∧
    a.scrollBarHandleColor lib palette mouseOver hasFocus opacity mode
        = b.scrollBarHandleColor lib palette mouseOver hasFocus opacity mode ∧
    a.checkBoxIndicatorColor lib palette mouseOver hasFocus opacity mode
        = b.checkBoxIndicatorColor lib palette mouseOver hasFocus opacity mode ∧
    a.separatorColor lib palette = b.separatorColor lib palette ∧
    a.alphaColor lib color alpha = b.alphaColor lib color alpha := by
  obtain ⟨h1, h2, h3, h4⟩ := hab
  simp only [frameOutlineColor, sidePanelOutlineColor, arrowColor, arrowColorAnimated,
    arrowColorRole, buttonOutlineColor, buttonBackgroundColor, toolButtonColor,
    sliderOutlineColor, scrollBarHandleColor, checkBoxIndicatorColor, separatorColor,
    alphaColor, focusColor, hoverColor, buttonFocusColor, buttonHoverColor,
    buttonFocusOutlineColor, buttonHoverOutlineColor, h1, h2, h3, h4, and_self]

/-- Witness of C1: the sample helper and the same helper at a later moment
(cache valid, title bar colours changed) return the same eleven colours. -/
theorem colour_functions_deterministic_witness :
    sameLoadedBrushes Rgba.sampleHelper Rgba.sampleHelperLater ∧
    (Rgba.sampleHelper.frameOutlineColor Rgba.lib Rgba.samplePalette true false (1/2)
        AnimationHover
      = Rgba.sampleHelperLater.frameOutlineColor Rgba.lib Rgba.samplePalette true false
        (1/2) AnimationHover) ∧
    (Rgba.sampleHelper.toolButtonColor Rgba.lib Rgba.samplePalette true false true (1/2)
        AnimationHover
      = Rgba.sampleHelperLater.toolButtonColor Rgba.lib Rgba.samplePalette true false true
        (1/2) AnimationHover) :=
  have h := colour_functions_deterministic Rgba.lib Rgba.sampleHelper
    Rgba.sampleHelperLater ⟨rfl, rfl, rfl, rfl⟩ Rgba.samplePalette true false true (1/2)
    AnimationHover .Active .WindowText Rgba.black (1/2)
  ⟨⟨rfl, rfl, rfl, rfl⟩, h.1, h.2.2.2.2.2.2.1⟩

/-- C2: in `frameOutlineColor` focus takes precedence over hover. For every
mode other than `AnimationFocus`, a focused frame gets exactly the focus
colour, whatever `mouseOver` and the opacity are. -/
theorem frameOutlineColor_focus_precedence (self : Helper QColor) (lib : ColorLib QColor)
    (palette : QPalette QColor) (mouseOver : Bool) (opacity : qreal)
    (mode : AnimationMode) (hmode : mode ≠ AnimationFocus) :
    self.frameOutlineColor lib palette mouseOver true opacity mode
      = self.focusColor palette := by
  simp [frameOutlineColor, hmode]

/-- Witness of C2: hovered and focused, during a hover animation. -/
theorem frameOutlineColor_focus_precedence_witness :
    AnimationHover ≠ AnimationFocus ∧
    Rgba.sampleHelper.frameOutlineColor Rgba.lib Rgba.samplePalette true true (1/2)
        AnimationHover
      = Rgba.sampleHelper.focusColor Rgba.samplePalette :=
  ⟨by decide, frameOutlineColor_focus_precedence Rgba.sampleHelper Rgba.lib
    Rgba.samplePalette true (1/2) AnimationHover (by decide)⟩

/-- C3: in `sliderOutlineColor` and in `scrollBarHandleColor` hover takes
precedence over focus. For every mode other than `AnimationHover`, a hovered
widget gets exactly the hover colour, whatever `hasFocus` and the opacity
are. -/
theorem slider_scrollBar_hover_precedence (self : Helper QColor) (lib : ColorLib QColor)
    (palette : QPalette QColor) (hasFocus : Bool) (opacity : qreal)
    (mode : AnimationMode) (hmode : mode ≠ AnimationHover) :
    self.sliderOutlineColor lib palette true hasFocus opacity mode
        = self.hoverColor palette ∧
    self.scrollBarHandleColor lib palette true hasFocus opacity mode
        = self.hoverColor palette := by
  simp [sliderOutlineColor, scrollBarHandleColor, hmode]

/-- Witness of C3: hovered and focused, during a focus animation. -/
theorem slider_scrollBar_hover_precedence_witness :
    AnimationFocus ≠ AnimationHover ∧
    Rgba.sampleHelper.sliderOutlineColor Rgba.lib Rgba.samplePalette true true (1/2)
        AnimationFocus
      = Rgba.sampleHelper.hoverColor Rgba.samplePalette ∧
    Rgba.sampleHelper.scrollBarHandleColor Rgba.lib Rgba.samplePalette true true (1/2)
        AnimationFocus
      = Rgba.sampleHelper.hoverColor Rgba.samplePalette :=
  ⟨by decide, slider_scrollBar_hover_precedence Rgba.sampleHelper Rgba.lib
    Rgba.samplePalette true (1/2) AnimationFocus (by decide)⟩

/-- C4: in `toolButtonColor` hover takes precedence over focus. For every
mode other than `AnimationHover`, a hovered tool button gets exactly the
button hover colour, whatever `hasFocus`, `sunken` and the opacity are. -/
theorem toolButtonColor_hover_precedence (self : Helper QColor) (lib : ColorLib QColor)
    (palette : QPalette QColor) (hasFocus sunken : Bool) (opacity : qreal)
    (mode : AnimationMode) (hmode : mode ≠ AnimationHover) :
    self.toolButtonColor lib palette true hasFocus sunken opacity mode
      = self.buttonHoverColor palette := by
  simp [toolButtonColor, hmode]

/-- Witness of C4: hovered, focused and sunken, during a focus animation. -/
theorem toolButtonColor_hover_precedence_witness :
    AnimationFocus ≠ AnimationHover ∧
    Rgba.sampleHelper.toolButtonColor Rgba.lib Rgba.samplePalette true true true (1/2)
        AnimationFocus
      = Rgba.sampleHelper.buttonHoverColor Rgba.samplePalette :=
  ⟨by decide, toolButtonColor_hover_precedence Rgba.sampleHelper Rgba.lib
    Rgba.samplePalette true true (1/2) AnimationFocus (by decide)⟩

/-- The concrete library returns its second argument at bias 1. -/
theorem rgba_mix_one (a b : Rgba) : Rgba.lib.mix a b 1 = b := by
  simp [Rgba.lib, Rgba.mix]

/-- The concrete library returns its first argument at bias 0. -/
theorem rgba_mix_zero (a b : Rgba) : Rgba.lib.mix a b 0 = a := by
  simp [Rgba.lib, Rgba.mix]

/-- C6: the hover blend of `buttonOutlineColor` joins the two static states.
When `mix( a, b, 0 )` is `a` and `mix( a, b, 1 )` is `b`, then for every
palette and every `hasFocus` the result for `AnimationHover` at opacity 0 is
the static result for `mouseOver` false and the result at opacity 1 is the
static result for `mouseOver` true; the value of `mouseOver` passed with the
animation mode does not matter. -/
theorem buttonOutlineColor_hover_blend_ends (self : Helper QColor) (lib : ColorLib QColor)
    (hmix0 : ∀ a b, lib.mix a b 0 = a) (hmix1 : ∀ a b, lib.mix a b 1 = b)
    (palette : QPalette QColor) (mouseOver hasFocus : Bool) :
    self.buttonOutlineColor lib palette mouseOver hasFocus 0 AnimationHover
        = self.buttonOutlineColor lib palette false hasFocus 0 AnimationNone ∧
    self.buttonOutlineColor lib palette mouseOver hasFocus 1 AnimationHover
        = self.buttonOutlineColor lib palette true hasFocus 1 AnimationNone ∧
    (∀ opacity : qreal,
      self.buttonOutlineColor lib palette false hasFocus opacity AnimationNone
          = self.buttonOutlineColor lib palette false hasFocus 0 AnimationNone ∧
      self.buttonOutlineColor lib palette true hasFocus opacity AnimationNone
          = self.buttonOutlineColor lib palette true hasFocus 1 AnimationNone) := by
  cases hasFocus <;> simp [buttonOutlineColor, hmix0, hmix1]

/-- Witness of C6: the concrete library and the sample helper, focused. -/
theorem buttonOutlineColor_hover_blend_ends_witness :
    (∀ a b : Rgba, Rgba.lib.mix a b 0 = a) ∧ (∀ a b : Rgba, Rgba.lib.mix a b 1 = b) ∧
    Rgba.sampleHelper.buttonOutlineColor Rgba.lib Rgba.samplePalette false true 0
        AnimationHover
      = Rgba.sampleHelper.buttonOutlineColor Rgba.lib Rgba.samplePalette false true 0
        AnimationNone ∧
    Rgba.sampleHelper.buttonOutlineColor Rgba.lib Rgba.samplePalette false true 1
        AnimationHover
      = Rgba.sampleHelper.buttonOutlineColor Rgba.lib Rgba.samplePalette true true 1
        AnimationNone :=
  have h := buttonOutlineColor_hover_blend_ends Rgba.sampleHelper Rgba.lib rgba_mix_zero
    rgba_mix_one Rgba.samplePalette false true
  ⟨rgba_mix_zero, rgba_mix_one, h.1, h.2.1⟩

/-- A call with a null widget returns false and leaves the helper and the
statics as they were. -/
theorem shouldDrawToolsArea_null (self : Helper QColor) (statics : ToolsAreaStatics)
    (kwinConfig : KConfig) :
    self.shouldDrawToolsArea statics kwinConfig none = (false, self, statics) := rfl

/-- A call while the cache is valid decides from the statics and leaves the
helper and the statics as they were. -/
theorem shouldDrawToolsArea_valid (self : Helper QColor) (statics : ToolsAreaStatics)
    (kwinConfig : KConfig) (widget : QWidget) (hvalid : self._cachedAutoValid = true) :
    self.shouldDrawToolsArea statics kwinConfig (some widget)
      = (toolsAreaDecision statics.isAuto statics.borderSize widget, self, statics) := by
  simp [shouldDrawToolsArea, hvalid]

/-- Calls with a null widget only: every result is false and nothing
changes. -/
theorem shouldDrawToolsAreaCalls_nulls (self : Helper QColor) (statics : ToolsAreaStatics)
    (nulls : List KConfig) (rest : List (KConfig × Option QWidget)) :
    shouldDrawToolsAreaCalls self statics (nulls.map (fun c => (c, none)) ++ rest)
      = ((nulls.map fun _ => false) ++ (shouldDrawToolsAreaCalls self statics rest).1,
          (shouldDrawToolsAreaCalls self statics rest).2) := by
  induction nulls with
  | nil => simp
  | cons c cs ih => simp [shouldDrawToolsAreaCalls, shouldDrawToolsArea_null, ih]

/-- Calls while the cache is valid: every result is decided from the statics
and nothing changes, whatever the configuration holds at each call. -/
theorem shouldDrawToolsAreaCalls_valid (self : Helper QColor) (statics : ToolsAreaStatics)
    (hvalid : self._cachedAutoValid = true) (calls : List (KConfig × Option QWidget)) :
    shouldDrawToolsAreaCalls self statics calls
      = (calls.map (fun c =>
            match c.2 with
            | none => false
            | some w => toolsAreaDecision statics.isAuto statics.borderSize w),
          self, statics) := by
  induction calls with
  | nil => simp [shouldDrawToolsAreaCalls]
  | cons c cs ih =>
      obtain ⟨cfg, widget⟩ := c
      cases widget with
      | none => simp [shouldDrawToolsAreaCalls, shouldDrawToolsArea_null, ih]
      | some w =>
          simp [shouldDrawToolsAreaCalls, shouldDrawToolsArea_valid _ _ _ _ hvalid, ih]

/-- C7: the cached border-size values are invalidated on reconfiguration.
`loadConfig` clears `_cachedAutoValid`. In a run of calls on the helper after
a `loadConfig`, calls with a null widget return false; the first call with a
non-null widget decides from the `BorderSizeAuto` and `BorderSize` entries
(defaults true and `Normal`) that group `org.kde.kdecoration2` of the
window-manager configuration holds at that call; every later call decides
from those same two values, whatever the configuration holds by then; and at
the end the cache is valid and the statics hold those two values. -/
theorem shouldDrawToolsArea_cache (self : Helper QColor) (env : ConfigEnvironment QColor)
    (statics : ToolsAreaStatics) (nulls : List KConfig) (kwinConfig : KConfig)
    (widget : QWidget) (later : List (KConfig × Option QWidget)) :
    (self.loadConfig env)._cachedAutoValid = false ∧
    shouldDrawToolsAreaCalls (self.loadConfig env) statics
        (nulls.map (fun c => (c, none)) ++ (kwinConfig, some widget) :: later)
      = ((nulls.map fun _ => false) ++
          toolsAreaDecision
              ((kwinConfig.group "org.kde.kdecoration2").readEntryBool "BorderSizeAuto" true)
              ((kwinConfig.group "org.kde.kdecoration2").readEntryString "BorderSize"
                "Normal")
              widget ::
            later.map (fun c =>
              match c.2 with
              | none => false
              | some w =>
                  toolsAreaDecision
                    ((kwinConfig.group "org.kde.kdecoration2").readEntryBool
                      "BorderSizeAuto" true)
                    ((kwinConfig.group "org.kde.kdecoration2").readEntryString
                      "BorderSize" "Normal")
                    w),
          { self.loadConfig env with _cachedAutoValid := true },
          ⟨(kwinConfig.group "org.kde.kdecoration2").readEntryBool "BorderSizeAuto" true,
            (kwinConfig.group "org.kde.kdecoration2").readEntryString "BorderSize"
              "Normal"⟩) := by
  refine ⟨rfl, ?_⟩
  rw [shouldDrawToolsAreaCalls_nulls]
  have hfirst : (self.loadConfig env).shouldDrawToolsArea statics kwinConfig (some widget)
      = (toolsAreaDecision
            ((kwinConfig.group "org.kde.kdecoration2").readEntryBool "BorderSizeAuto" true)
            ((kwinConfig.group "org.kde.kdecoration2").readEntryString "BorderSize"
              "Normal")
            widget,
          { self.loadConfig env with _cachedAutoValid := true },
          ⟨(kwinConfig.group "org.kde.kdecoration2").readEntryBool "BorderSizeAuto" true,
            (kwinConfig.group "org.kde.kdecoration2").readEntryString "BorderSize"
              "Normal"⟩) := by
    simp [shouldDrawToolsArea, loadConfig]
  simp only [shouldDrawToolsAreaCalls, hfirst]
  rw [shouldDrawToolsAreaCalls_valid _ _ rfl]

/-- C8: `hasAlphaChannel( widget )` is true exactly when compositing is
active, the widget is non-null and the widget has the translucent-background
attribute; it is false for a null widget, and false for every widget when
compositing is inactive. -/
theorem hasAlphaChannel_iff (self : Helper QColor) (ws : WindowSystem) :
    (∀ widget : Option QWidget,
      self.hasAlphaChannel ws widget = true ↔
        self.compositingActive ws = true ∧
          ∃ w, widget = some w ∧ w.testAttribute Qt.WA_TranslucentBackground = true) ∧
    self.hasAlphaChannel ws none = false ∧
    (self.compositingActive ws = false →
      ∀ widget : Option QWidget, self.hasAlphaChannel ws widget = false) := by
  refine ⟨?_, ?_, ?_⟩
  · intro widget
    cases widget <;> simp [hasAlphaChannel]
  · simp [hasAlphaChannel]
  · intro h widget
    simp [hasAlphaChannel, h]

/-- Witness of C8: without compositing a translucent widget has no alpha
channel. -/
theorem hasAlphaChannel_iff_witness :
    Rgba.sampleHelper.compositingActive sampleNoCompositing = false ∧
    Rgba.sampleHelper.hasAlphaChannel sampleNoCompositing (some sampleTranslucentWidget)
      = false :=
  ⟨rfl, (hasAlphaChannel_iff Rgba.sampleHelper sampleNoCompositing).2.2 rfl
    (some sampleTranslucentWidget)⟩

/-- C9 fails as stated: at the rectangle with left `2^53`, top 0, width `2^53`
and height 1 and pen width 1 the additions round, and the result keeps left
`2^53` and width `2^53`, so the left side is not moved by `1/2` and the width
is not reduced by 1. -/
theorem strokedRect_inset_counterexample :
    Rgba.sampleHelper.strokedRect ⟨9007199254740992, 0, 9007199254740992, 1⟩ 1
      = ⟨9007199254740992, 1 / 2, 9007199254740992, 0⟩ ∧
    (Rgba.sampleHelper.strokedRect ⟨9007199254740992, 0, 9007199254740992, 1⟩ 1).left
      ≠ QRectF.left ⟨9007199254740992, 0, 9007199254740992, 1⟩ + (1 : qreal) / 2 ∧
    (Rgba.sampleHelper.strokedRect ⟨9007199254740992, 0, 9007199254740992, 1⟩ 1).width
      ≠ QRectF.width ⟨9007199254740992, 0, 9007199254740992, 1⟩ - 1 := by
  have hadj : qMul 0.5 ((1 : Int) : qreal) = 1 / 2 := by
    rw [qMul_exact _ _ 2 (by norm_num) (by norm_num)]
    norm_num
  have hx : qAdd 9007199254740992 (1 / 2) = 9007199254740992 :=
    roundDouble_above_two_pow_53
  have hy : qAdd 0 (1 / 2) = 1 / 2 := by
    rw [qAdd_exact _ _ 2 (by norm_num) (by norm_num)]
    norm_num
  have hw1 : qAdd 9007199254740992 (-(1 / 2)) = 9007199254740992 := by
    have e : (9007199254740992 : ℚ) + -(1 / 2) = 9007199254740992 - 1 / 2 := by ring
    unfold qAdd
    rw [e]
    exact roundDouble_below_two_pow_53
  have hw2 : qSub 9007199254740992 (1 / 2) = 9007199254740992 :=
    roundDouble_below_two_pow_53
  have hh1 : qAdd 1 (-(1 / 2)) = 1 / 2 := by
    rw [qAdd_exact _ _ 2 (by norm_num) (by norm_num)]
    norm_num
  have hh2 : qSub (1 / 2) (1 / 2) = 0 := by
    rw [qSub_exact _ _ 0 (by norm_num) (by norm_num)]
    norm_num
  have hres : Rgba.sampleHelper.strokedRect ⟨9007199254740992, 0, 9007199254740992, 1⟩ 1
      = ⟨9007199254740992, 1 / 2, 9007199254740992, 0⟩ := by
    simp only [strokedRect, QRectF.adjusted, hadj, hx, hy, hw1, hw2, hh1, hh2]
  refine ⟨hres, ?_, ?_⟩
  · rw [hres]
    simp only [QRectF.left]
    norm_num
  · rw [hres]
    simp only [QRectF.width]
    norm_num

/-- C9 as amended: `strokedRect` moves each side of the rectangle inwards by
half the pen width wherever the `double` operations are exact. For every
rectangle whose left, top, width and height are multiples of `1/2` of
magnitude at most `2^47` and every 32-bit pen width, left and top grow by
half the pen width, right and bottom shrink by it, width and height shrink by
the pen width, the centre stays, and growing the result by half the pen width
on every side gives back the rectangle; for every rectangle the `QRect`
overload is the `QRectF` overload on the converted rectangle. -/
theorem strokedRect_inset (self : Helper QColor) (rect : QRectF) (penWidth : Int)
    (irect : QRect) (hx : onHalfGrid rect.xp) (hy : onHalfGrid rect.yp)
    (hw : onHalfGrid rect.w) (hh : onHalfGrid rect.h) (hp : isInt32 penWidth) :
    (self.strokedRect rect penWidth).left = rect.left + (penWidth : qreal) / 2 ∧
    (self.strokedRect rect penWidth).top = rect.top + (penWidth : qreal) / 2 ∧
    (self.strokedRect rect penWidth).right = rect.right - (penWidth : qreal) / 2 ∧
    (self.strokedRect rect penWidth).bottom = rect.bottom - (penWidth : qreal) / 2 ∧
    (self.strokedRect rect penWidth).width = rect.width - penWidth ∧
    (self.strokedRect rect penWidth).height = rect.height - penWidth ∧
    (self.strokedRect rect penWidth).center = rect.center ∧
    (self.strokedRect rect penWidth).adjusted (-((penWidth : qreal) / 2))
        (-((penWidth : qreal) / 2)) ((penWidth : qreal) / 2) ((penWidth : qreal) / 2)
      = rect ∧
    self.strokedRectOfQRect irect penWidth
      = self.strokedRect irect.toQRectF penWidth := by
  obtain ⟨x, y, w, h⟩ := rect
  obtain ⟨kx, rfl, bx1, bx2⟩ := hx
  obtain ⟨ky, rfl, by1, by2⟩ := hy
  obtain ⟨kw, rfl, bw1, bw2⟩ := hw
  obtain ⟨kh, rfl, bh1, bh2⟩ := hh
  obtain ⟨p1, p2⟩ := hp
  have hadj : qMul 0.5 (penWidth : qreal) = (penWidth : qreal) / 2 := by
    rw [qMul_exact _ _ (2 * penWidth) (by push_cast; norm_num; ring)
      ⟨by omega, by omega⟩]
    norm_num
    ring
  -- the four fields of the result
  have hX : qAdd ((kx : qreal) / 2) ((penWidth : qreal) / 2)
      = (kx : qreal) / 2 + (penWidth : qreal) / 2 :=
    qAdd_exact _ _ (2 * kx + 2 * penWidth) (by push_cast; ring) ⟨by omega, by omega⟩
  have hY : qAdd ((ky : qreal) / 2) ((penWidth : qreal) / 2)
      = (ky : qreal) / 2 + (penWidth : qreal) / 2 :=
    qAdd_exact _ _ (2 * ky + 2 * penWidth) (by push_cast; ring) ⟨by omega, by omega⟩
  have hW1 : qAdd ((kw : qreal) / 2) (-((penWidth : qreal) / 2))
      = (kw : qreal) / 2 + -((penWidth : qreal) / 2) :=
    qAdd_exact _ _ (2 * kw - 2 * penWidth) (by push_cast; ring) ⟨by omega, by omega⟩
  have hW2 : qSub ((kw : qreal) / 2 + -((penWidth : qreal) / 2)) ((penWidth : qreal) / 2)
      = (kw : qreal) / 2 + -((penWidth : qreal) / 2) - (penWidth : qreal) / 2 :=
    qSub_exact _ _ (2 * kw - 4 * penWidth) (by push_cast; ring) ⟨by omega, by omega⟩
  have hH1 : qAdd ((kh : qreal) / 2) (-((penWidth : qreal) / 2))
      = (kh : qreal) / 2 + -((penWidth : qreal) / 2) :=
    qAdd_exact _ _ (2 * kh - 2 * penWidth) (by push_cast; ring) ⟨by omega, by omega⟩
  have hH2 : qSub ((kh : qreal) / 2 + -((penWidth : qreal) / 2)) ((penWidth : qreal) / 2)
      = (kh : qreal) / 2 + -((penWidth : qreal) / 2) - (penWidth : qreal) / 2 :=
    qSub_exact _ _ (2 * kh - 4 * penWidth) (by push_cast; ring) ⟨by omega, by omega⟩
  have hres : self.strokedRect ⟨(kx : qreal) / 2, (ky : qreal) / 2, (kw : qreal) / 2,
        (kh : qreal) / 2⟩ penWidth
      = ⟨(kx : qreal) / 2 + (penWidth : qreal) / 2,
          (ky : qreal) / 2 + (penWidth : qreal) / 2,
          (kw : qreal) / 2 + -((penWidth : qreal) / 2) - (penWidth : qreal) / 2,
          (kh : qreal) / 2 + -((penWidth : qreal) / 2) - (penWidth : qreal) / 2⟩ := by
    simp only [strokedRect, QRectF.adjusted, hadj, hX, hY, hW1, hW2, hH1, hH2]
  -- right and bottom edges
  have hR : qAdd ((kx : qreal) / 2 + (penWidth : qreal) / 2)
        ((kw : qreal) / 2 + -((penWidth : qreal) / 2) - (penWidth : qreal) / 2)
      = (kx : qreal) / 2 + (penWidth : qreal) / 2
        + ((kw : qreal) / 2 + -((penWidth : qreal) / 2) - (penWidth : qreal) / 2) :=
    qAdd_exact _ _ (2 * kx + 2 * kw - 2 * penWidth) (by push_cast; ring)
      ⟨by omega, by omega⟩
  have hR0 : qAdd ((kx : qreal) / 2) ((kw : qreal) / 2)
      = (kx : qreal) / 2 + (kw : qreal) / 2 :=
    qAdd_exact _ _ (2 * kx + 2 * kw) (by push_cast; ring) ⟨by omega, by omega⟩
  have hB : qAdd ((ky : qreal) / 2 + (penWidth : qreal) / 2)
        ((kh : qreal) / 2 + -((penWidth : qreal) / 2) - (penWidth : qreal) / 2)
      = (ky : qreal) / 2 + (penWidth : qreal) / 2
        + ((kh : qreal) / 2 + -((penWidth : qreal) / 2) - (penWidth : qreal) / 2) :=
    qAdd_exact _ _ (2 * ky + 2 * kh - 2 * penWidth) (by push_cast; ring)
      ⟨by omega, by omega⟩
  have hB0 : qAdd ((ky : qreal) / 2) ((kh : qreal) / 2)
      = (ky : qreal) / 2 + (kh : qreal) / 2 :=
    qAdd_exact _ _ (2 * ky + 2 * kh) (by push_cast; ring) ⟨by omega, by omega⟩
  -- centre
  have hCw : qDiv ((kw : qreal) / 2 + -((penWidth : qreal) / 2) - (penWidth : qreal) / 2) 2
      = ((kw : qreal) / 2 + -((penWidth : qreal) / 2) - (penWidth : qreal) / 2) / 2 :=
    qDiv_exact _ _ (kw - 2 * penWidth) (by push_cast; ring) ⟨by omega, by omega⟩
  have hCx : qAdd ((kx : qreal) / 2 + (penWidth : qreal) / 2)
        (((kw : qreal) / 2 + -((penWidth : qreal) / 2) - (penWidth : qreal) / 2) / 2)
      = (kx : qreal) / 2 + (penWidth : qreal) / 2
        + ((kw : qreal) / 2 + -((penWidth : qreal) / 2) - (penWidth : qreal) / 2) / 2 :=
    qAdd_exact _ _ (2 * kx + kw) (by push_cast; ring) ⟨by omega, by omega⟩
  have hCw0 : qDiv ((kw : qreal) / 2) 2 = (kw : qreal) / 2 / 2 :=
    qDiv_exact _ _ kw (by ring) ⟨by omega, by omega⟩
  have hCx0 : qAdd ((kx : qreal) / 2) ((kw : qreal) / 2 / 2)
      = (kx : qreal) / 2 + (kw : qreal) / 2 / 2 :=
    qAdd_exact _ _ (2 * kx + kw) (by push_cast; ring) ⟨by omega, by omega⟩
  have hCh : qDiv ((kh : qreal) / 2 + -((penWidth : qreal) / 2) - (penWidth : qreal) / 2) 2
      = ((kh : qreal) / 2 + -((penWidth : qreal) / 2) - (penWidth : qreal) / 2) / 2 :=
    qDiv_exact _ _ (kh - 2 * penWidth) (by push_cast; ring) ⟨by omega, by omega⟩
  have hCy : qAdd ((ky : qreal) / 2 + (penWidth : qreal) / 2)
        (((kh : qreal) / 2 + -((penWidth : qreal) / 2) - (penWidth : qreal) / 2) / 2)
      = (ky : qreal) / 2 + (penWidth : qreal) / 2
        + ((kh : qreal) / 2 + -((penWidth : qreal) / 2) - (penWidth : qreal) / 2) / 2 :=
    qAdd_exact _ _ (2 * ky + kh) (by push_cast; ring) ⟨by omega, by omega⟩
  have hCh0 : qDiv ((kh : qreal) / 2) 2 = (kh : qreal) / 2 / 2 :=
    qDiv_exact _ _ kh (by ring) ⟨by omega, by omega⟩
  have hCy0 : qAdd ((ky : qreal) / 2) ((kh : qreal) / 2 / 2)
      = (ky : qreal) / 2 + (kh : qreal) / 2 / 2 :=
    qAdd_exact _ _ (2 * ky + kh) (by push_cast; ring) ⟨by omega, by omega⟩
  -- growing the result back
  have hGx : qAdd ((kx : qreal) / 2 + (penWidth : qreal) / 2) (-((penWidth : qreal) / 2))
      = (kx : qreal) / 2 + (penWidth : qreal) / 2 + -((penWidth : qreal) / 2) :=
    qAdd_exact _ _ (2 * kx) (by push_cast; ring) ⟨by omega, by omega⟩
  have hGy : qAdd ((ky : qreal) / 2 + (penWidth : qreal) / 2) (-((penWidth : qreal) / 2))
      = (ky : qreal) / 2 + (penWidth : qreal) / 2 + -((penWidth : qreal) / 2) :=
    qAdd_exact _ _ (2 * ky) (by push_cast; ring) ⟨by omega, by omega⟩
  have hGw1 : qAdd ((kw : qreal) / 2 + -((penWidth : qreal) / 2) - (penWidth : qreal) / 2)
        ((penWidth : qreal) / 2)
      = (kw : qreal) / 2 + -((penWidth : qreal) / 2) - (penWidth : qreal) / 2
        + (penWidth : qreal) / 2 :=
    qAdd_exact _ _ (2 * kw - 2 * penWidth) (by push_cast; ring) ⟨by omega, by omega⟩
  have hGw2 : qSub ((kw : qreal) / 2 + -((penWidth : qreal) / 2) - (penWidth : qreal) / 2
        + (penWidth : qreal) / 2) (-((penWidth : qreal) / 2))
      = (kw : qreal) / 2 + -((penWidth : qreal) / 2) - (penWidth : qreal) / 2
        + (penWidth : qreal) / 2 - -((penWidth : qreal) / 2) :=
    qSub_exact _ _ (2 * kw) (by push_cast; ring) ⟨by omega, by omega⟩
  have hGh1 : qAdd ((kh : qreal) / 2 + -((penWidth : qreal) / 2) - (penWidth : qreal) / 2)
        ((penWidth : qreal) / 2)
      = (kh : qreal) / 2 + -((penWidth : qreal) / 2) - (penWidth : qreal) / 2
        + (penWidth : qreal) / 2 :=
    qAdd_exact _ _ (2 * kh - 2 * penWidth) (by push_cast; ring) ⟨by omega, by omega⟩
  have hGh2 : qSub ((kh : qreal) / 2 + -((penWidth : qreal) / 2) - (penWidth : qreal) / 2
        + (penWidth : qreal) / 2) (-((penWidth : qreal) / 2))
      = (kh : qreal) / 2 + -((penWidth : qreal) / 2) - (penWidth : qreal) / 2
        + (penWidth : qreal) / 2 - -((penWidth : qreal) / 2) :=
    qSub_exact _ _ (2 * kh) (by push_cast; ring) ⟨by omega, by omega⟩
  rw [hres]
  refine ⟨?_, ?_, ?_, ?_, ?_, ?_, ?_, ?_, rfl⟩
  · simp only [QRectF.left]
  · simp only [QRectF.top]
  · simp only [QRectF.right, hR, hR0]
    ring
  · simp only [QRectF.bottom, hB, hB0]
    ring
  · simp only [QRectF.width]
    ring
  · simp only [QRectF.height]
    ring
  · simp only [QRectF.center, hCw, hCx, hCw0, hCx0, hCh, hCy, hCh0, hCy0,
      QPointF.mk.injEq]
    constructor <;> ring
  · simp only [QRectF.adjusted, hGx, hGy, hGw1, hGw2, hGh1, hGh2, QRectF.mk.injEq]
    refine ⟨?_, ?_, ?_, ?_⟩ <;> ring

/-- Witness of C9 as amended: the rectangle with left 0, top 0, width 10 and
height 6 and pen width 1. -/
theorem strokedRect_inset_witness :
    onHalfGrid (10 : qreal) ∧ isInt32 1 ∧
    (Rgba.sampleHelper.strokedRect ⟨0, 0, 10, 6⟩ 1).width
      = QRectF.width ⟨0, 0, 10, 6⟩ - ((1 : Int) : qreal) ∧
    (Rgba.sampleHelper.strokedRect ⟨0, 0, 10, 6⟩ 1).adjusted
        (-(((1 : Int) : qreal) / 2)) (-(((1 : Int) : qreal) / 2))
        (((1 : Int) : qreal) / 2) (((1 : Int) : qreal) / 2)
      = ⟨0, 0, 10, 6⟩ :=
  have h0 : onHalfGrid (0 : qreal) := ⟨0, by norm_num, by norm_num, by norm_num⟩
  have h10 : onHalfGrid (10 : qreal) := ⟨20, by norm_num, by norm_num, by norm_num⟩
  have h6 : onHalfGrid (6 : qreal) := ⟨12, by norm_num, by norm_num, by norm_num⟩
  have hp : isInt32 1 := by decide
  have h := strokedRect_inset Rgba.sampleHelper ⟨0, 0, 10, 6⟩ 1 sampleRect h0 h0 h10 h6 hp
  ⟨h10, hp, h.2.2.2.2.1, h.2.2.2.2.2.2.2.1⟩

/-- C10: `arrowColor( palette, group, role )` mixes `Text` with `Base`,
`WindowText` with `Window` and `ButtonText` with `Button`, each of the same
colour group, at bias 0.15, the value of `arrowShade`; for every other role it
returns `palette.color( group, role )`. -/
theorem arrowColor_roles (self : Helper QColor) (lib : ColorLib QColor)
    (palette : QPalette QColor) (group : QPalette.ColorGroup) :
    arrowShade = 0.15 ∧
    self.arrowColor lib palette group .Text
      = lib.mix (palette.color group .Text) (palette.color group .Base) 0.15 ∧
    self.arrowColor lib palette group .WindowText
      = lib.mix (palette.color group .WindowText) (palette.color group .Window) 0.15 ∧
    self.arrowColor lib palette group .ButtonText
      = lib.mix (palette.color group .ButtonText) (palette.color group .Button) 0.15 ∧
    (∀ role : QPalette.ColorRole,
      role ≠ .Text → role ≠ .WindowText → role ≠ .ButtonText →
        self.arrowColor lib palette group role = palette.color group role) := by
  refine ⟨rfl, rfl, rfl, rfl, ?_⟩
  intro role h1 h2 h3
  cases role <;> first | rfl | exact absurd rfl h1 | exact absurd rfl h2 | exact absurd rfl h3

/-- Witness of C10: the highlight role of the sample palette is returned
unchanged. -/
theorem arrowColor_roles_witness :
    Rgba.sampleHelper.arrowColor Rgba.lib Rgba.samplePalette .Active .Highlight
      = Rgba.samplePalette.color .Active .Highlight :=
  (arrowColor_roles Rgba.sampleHelper Rgba.lib Rgba.samplePalette .Active).2.2.2.2
    .Highlight (by decide) (by decide) (by decide)

/-- C11: `renderToolButtonFrame` does nothing for an invalid colour. For every
rectangle and every `sunken` value, no operation is issued on the painter
when the colour is invalid: the painter is returned as it was. -/
theorem renderToolButtonFrame_invalid (self : Helper QColor) (lib : ColorLib QColor)
    (m : Metrics) (painter : QPainter QColor) (rect : QRect) (color : QColor)
    (sunken : Bool) (hinvalid : lib.isValid color = false) :
    self.renderToolButtonFrame lib m painter rect color sunken = painter ∧
    (self.renderToolButtonFrame lib m painter rect color sunken).ops = painter.ops := by
  simp [renderToolButtonFrame, hinvalid]

/-- Witness of C11: the default constructed colour of the concrete library,
on a sunken button. -/
theorem renderToolButtonFrame_invalid_witness :
    Rgba.lib.isValid Rgba.lib.invalid = false ∧
    (Rgba.sampleHelper.renderToolButtonFrame Rgba.lib sampleMetrics samplePainter
        sampleRect Rgba.lib.invalid true).ops = [] :=
  ⟨rfl, (renderToolButtonFrame_invalid Rgba.sampleHelper Rgba.lib sampleMetrics
    samplePainter sampleRect Rgba.lib.invalid true rfl).2⟩

/-- C12: the simple cases of `roundedPath`. For every rectangle and radius,
the path for the empty corner set is the plain rectangle and nothing else,
and the path for `AllCorners` is the rounded rectangle with the radius on
both axes and nothing else. -/
theorem roundedPath_simple_cases (self : Helper QColor) (rect : QRectF) (radius : qreal) :
    self.roundedPath rect 0 radius = ⟨[.addRect rect]⟩ ∧
    self.roundedPath rect AllCorners radius = ⟨[.addRoundedRect rect radius radius]⟩ := by
  have hall : AllCorners ≠ 0 := by decide
  simp [roundedPath, hall, QPainterPath.addRect, QPainterPath.addRoundedRect,
    QPainterPath.empty]

/-- The truncating remainder by two is zero exactly for the even integers. -/
theorem tmod_two_eq_zero_iff_even (x : Int) : x.tmod 2 = 0 ↔ Even x := by
  rw [← Int.dvd_iff_tmod_eq_zero, even_iff_two_dvd]

/-- The test of `toolBoxTabWidth` succeeds exactly when the exact difference
is even. -/
theorem toolBoxTabWidth_test (w tabWidth : Int) :
    (wrapInt32 (w - tabWidth)).tmod 2 = 0 ↔ (w - tabWidth) % 2 = 0 := by
  rw [tmod_two_eq_zero_iff_even, wrapInt32_even_iff, Int.even_iff]

/-- C14 fails as stated: for a rectangle of width 11 and the largest `int`
tab width the difference is even, and the incremented tab width is a 32-bit
`int`, here the wrapped value `-2^31`, not `tabWidth+1`. -/
theorem renderToolBoxFrame_tabWidth_odd_counterexample :
    isInt32 2147483647 ∧
    QRect.width ⟨0, 0, 10, 0⟩ = 11 ∧
    Even (QRect.width ⟨0, 0, 10, 0⟩ - 2147483647) ∧
    toolBoxTabWidth ⟨0, 0, 10, 0⟩ 2147483647 = -2147483648 ∧
    toolBoxTabWidth ⟨0, 0, 10, 0⟩ 2147483647 ≠ 2147483647 + 1 := by
  decide

/-- C14 as amended: `renderToolBoxFrame` makes the difference between the
width of the rectangle and the tab width odd. For every rectangle and every
32-bit tab width, the tab width in use is `tabWidth+1` when
`rect.width() - tabWidth` is even and `tabWidth` is below the largest `int`,
and `tabWidth` when the difference is odd; it is a 32-bit `int`; the width
less the tab width in use is odd, also when it is negative; and for a valid
outline colour the path that is drawn is built with that tab width. -/
theorem renderToolBoxFrame_tabWidth_odd (self : Helper QColor) (lib : ColorLib QColor)
    (m : Metrics) (painter : QPainter QColor) (rect : QRect) (tabWidth : Int)
    (outline : QColor) (htab : isInt32 tabWidth) :
    (Even (rect.width - tabWidth) → tabWidth < 2147483647 →
      toolBoxTabWidth rect tabWidth = tabWidth + 1) ∧
    (¬ Even (rect.width - tabWidth) → toolBoxTabWidth rect tabWidth = tabWidth) ∧
    isInt32 (toolBoxTabWidth rect tabWidth) ∧
    Odd (rect.width - toolBoxTabWidth rect tabWidth) ∧
    (lib.isValid outline = true →
      self.renderToolBoxFrame lib m painter rect tabWidth outline
        = (((((painter.issue (.setRenderHints .Antialiasing)).issue
              (.setBrush .NoBrush)).issue
              (.setPen (.ofColor outline))).issue
              (.translate (self.strokedRectOfQRect rect m.PenWidth_Frame).topLeft)).issue
              (.drawPath
                (toolBoxPath (self.strokedRectOfQRect rect m.PenWidth_Frame)
                  (toolBoxTabWidth rect tabWidth) (m.frameRadius m.PenWidth_Frame)))))
    := by
  have key := toolBoxTabWidth_test rect.width tabWidth
  obtain ⟨t1, t2⟩ := htab
  refine ⟨?_, ?_, ?_, ?_, ?_⟩
  · intro h hlt
    rw [Int.even_iff] at h
    rw [toolBoxTabWidth, if_pos (key.2 h)]
    exact wrapInt32_of_isInt32 _ ⟨by omega, by omega⟩
  · intro h
    rw [Int.even_iff] at h
    rw [toolBoxTabWidth, if_neg (fun hc => h (key.1 hc))]
  · unfold toolBoxTabWidth
    split_ifs
    · exact isInt32_wrapInt32 _
    · exact ⟨t1, t2⟩
  · rw [Int.odd_iff]
    unfold toolBoxTabWidth
    split_ifs with hc
    · have h := key.1 hc
      unfold wrapInt32
      omega
    · have h : ¬ (rect.width - tabWidth) % 2 = 0 := fun h => hc (key.2 h)
      omega
  · intro h
    simp [renderToolBoxFrame, h]

/-- Witness of C14 as amended: width 10 with tab width 4 (difference 6, even)
uses tab width 5, and a valid outline colour draws the path built with it. -/
theorem renderToolBoxFrame_tabWidth_odd_witness :
    isInt32 4 ∧ Even (sampleRect.width - 4) ∧ toolBoxTabWidth sampleRect 4 = 5 ∧
    Rgba.lib.isValid Rgba.black = true ∧
    Rgba.sampleHelper.renderToolBoxFrame Rgba.lib sampleMetrics samplePainter sampleRect 4
        Rgba.black
      = (((((samplePainter.issue (.setRenderHints .Antialiasing)).issue
            (.setBrush .NoBrush)).issue
            (.setPen (.ofColor Rgba.black))).issue
            (.translate
              (Rgba.sampleHelper.strokedRectOfQRect sampleRect
                sampleMetrics.PenWidth_Frame).topLeft)).issue
            (.drawPath
              (toolBoxPath
                (Rgba.sampleHelper.strokedRectOfQRect sampleRect
                  sampleMetrics.PenWidth_Frame)
                (toolBoxTabWidth sampleRect 4)
                (sampleMetrics.frameRadius sampleMetrics.PenWidth_Frame)))) :=
  have htab : isInt32 4 := by decide
  have h := renderToolBoxFrame_tabWidth_odd Rgba.sampleHelper Rgba.lib sampleMetrics
    samplePainter sampleRect 4 Rgba.black htab
  have heven : Even (sampleRect.width - 4) := by decide
  ⟨htab, heven, h.1 heven (by decide), rfl, h.2.2.2.2 rfl⟩

/-- C15: hover alone never changes the background of an unfocused button.
For every palette, when `hasFocus` is false and the mode is not
`AnimationFocus`, `buttonBackgroundColor` returns the base background,
`mix( Button, ButtonText, 0.2 )` when sunken and the `Button` colour
otherwise, whatever `mouseOver` and the opacity are. -/
theorem buttonBackgroundColor_unfocused (self : Helper QColor) (lib : ColorLib QColor)
    (palette : QPalette QColor) (mouseOver sunken : Bool) (opacity : qreal)
    (mode : AnimationMode) (hmode : mode ≠ AnimationFocus) :
    self.buttonBackgroundColor lib palette mouseOver false sunken opacity mode
      = if sunken then
          lib.mix (palette.colorOf .Button) (palette.colorOf .ButtonText) 0.2
        else palette.colorOf .Button := by
  simp [buttonBackgroundColor, hmode]

/-- Witness of C15: a hovered, sunken, unfocused button during a hover
animation. -/
theorem buttonBackgroundColor_unfocused_witness :
    AnimationHover ≠ AnimationFocus ∧
    Rgba.sampleHelper.buttonBackgroundColor Rgba.lib Rgba.samplePalette true false true
        (1/2) AnimationHover
      = Rgba.lib.mix (Rgba.samplePalette.colorOf .Button)
          (Rgba.samplePalette.colorOf .ButtonText) 0.2 :=
  ⟨by decide, buttonBackgroundColor_unfocused Rgba.sampleHelper Rgba.lib
    Rgba.samplePalette true true (1/2) AnimationHover (by decide)⟩

end Helper

end Breeze
